import Mathlib

/-!
# Verification of the scholarship document-verification pipeline

Shallow embedding of `backend/app/services/scholarship_verification.py`
(class `ScholarshipVerificationService`) and of the aggregation loop in
`backend/app/api/v1/endpoints/scholarship_verification.py`
(`verify_scholarship_request`), together with theorems settling the
specification claims about them.

Python floats are modelled as rationals (`ℚ`); Python strings as Lean
`String`; Python dicts with a fixed key set as structures whose optional
keys are `Option` fields.  External dependencies (the OCR engine, pdf/docx
text extractors, and the pixel-level image heuristics) are parameters of
the embedded functions, exactly as they are replaceable collaborators of
the service.  The wall clock (`datetime.now()`) is an explicit `now`
parameter measured in days (see `daysFromCivil`).
-/

namespace Camps

/-- Python `str.lower()` (ASCII fragment). -/
def pyLower (s : String) : String := ⟨s.data.map Char.toLower⟩

/-- Python `str.strip()` with no argument: trim surrounding whitespace. -/
def pyStrip (s : String) : String :=
  ⟨((s.data.dropWhile Char.isWhitespace).reverse.dropWhile
      Char.isWhitespace).reverse⟩

/-- Split a character list on a separator character (Python
`str.split(sep)` for a one-character separator, as induced by the
fixed-literal `strptime` formats). -/
def splitOnChar (sep : Char) : List Char → List (List Char)
  | [] => [[]]
  | c :: rest =>
    let r := splitOnChar sep rest
    if c = sep then [] :: r
    else
      match r with
      | h :: t => (c :: h) :: t
      | [] => [[c]]

/-- Value of a list of decimal digits. -/
def digitsToNat (l : List Char) : ℕ :=
  l.foldl (fun n c => n * 10 + (c.toNat - '0'.toNat)) 0

/-! ## Python dates

`_validate_date` (lines 893-921) and the fraud date check (lines 599-612)
use `datetime.strptime`, `datetime.now()` and day arithmetic
(`timedelta(days=365*10)`).  Parsed dates are mapped to civil day numbers
(days since 1970-01-01, proleptic Gregorian — the same ordering and day
differences as `datetime`); the wall clock is injected as a rational day
count `now`, as the spec requires it to be. -/

/-- Gregorian leap year. -/
def isLeapYear (y : ℕ) : Bool :=
  y % 4 == 0 && (y % 100 != 0 || y % 400 == 0)

/-- Days in a month, as validated by the `datetime` constructor. -/
def daysInMonth (y m : ℕ) : ℕ :=
  if m = 2 then (if isLeapYear y then 29 else 28)
  else if m = 4 ∨ m = 6 ∨ m = 9 ∨ m = 11 then 30
  else 31

/-- A (year, month, day) triple `datetime` accepts (`MINYEAR = 1`,
`MAXYEAR = 9999`). -/
def validDate (y m d : ℕ) : Bool :=
  1 ≤ y && y ≤ 9999 && 1 ≤ m && m ≤ 12 && 1 ≤ d && d ≤ daysInMonth y m

/-- Civil day number of a valid Gregorian date: days since 1970-01-01
(Hinnant's `days_from_civil`; all intermediate values are nonnegative for
years ≥ 1). -/
def daysFromCivil (y m d : ℕ) : ℤ :=
  let y' := if m ≤ 2 then y - 1 else y
  let era := y' / 400
  let yoe := y' - era * 400
  let mp := if 2 < m then m - 3 else m + 9
  let doy := (153 * mp + 2) / 5 + d - 1
  let doe := yoe * 365 + yoe / 4 - yoe / 100 + doy
  (↑(era * 146097 + doe) : ℤ) - 719468

/-- One numeric field of a `strptime` format: an all-digit string of length
between 1 and `maxLen`. -/
def numField (l : List Char) (maxLen : ℕ) : Option ℕ :=
  if 1 ≤ l.length ∧ l.length ≤ maxLen ∧ l.all Char.isDigit then
    some (digitsToNat l)
  else none

/-- The `%Y` field of CPython's `_strptime`: its regex is exactly four
digits (`(?P<Y>\d\d\d\d)`), so two- and three-digit years never parse. -/
def yearField (l : List Char) : Option ℕ :=
  if l.length = 4 ∧ l.all Char.isDigit then some (digitsToNat l) else none

/-- `strptime` with format `%d<sep>%m<sep>%Y`: day and month of 1-2 digits,
year of exactly 4 digits, matching the whole string,
calendar-validated. -/
def strptimeDMY (sep : Char) (s : String) : Option (ℕ × ℕ × ℕ) :=
  match splitOnChar sep s.data with
  | [ds, ms, ys] =>
    match numField ds 2, numField ms 2, yearField ys with
    | some d, some m, some y =>
      if validDate y m d then some (y, m, d) else none
    | _, _, _ => none
  | _ => none

/-- `strptime` with format `%Y-%m-%d`. -/
def strptimeYMD (s : String) : Option (ℕ × ℕ × ℕ) :=
  match splitOnChar '-' s.data with
  | [ys, ms, ds] =>
    match yearField ys, numField ms 2, numField ds 2 with
    | some y, some m, some d =>
      if validDate y m d then some (y, m, d) else none
    | _, _, _ => none
  | _ => none

/-- `strptime` with format `%m/%d/%Y`. -/
def strptimeMDY (s : String) : Option (ℕ × ℕ × ℕ) :=
  match splitOnChar '/' s.data with
  | [ms, ds, ys] =>
    match numField ms 2, numField ds 2, yearField ys with
    | some m, some d, some y =>
      if validDate y m d then some (y, m, d) else none
    | _, _, _ => none
  | _ => none

/-- The format list tried in order by `_validate_date`
(`['%d/%m/%Y', '%d-%m-%Y', '%Y-%m-%d', '%m/%d/%Y']`), first success
winning. -/
def parseDateMulti (s : String) : Option (ℕ × ℕ × ℕ) :=
  match strptimeDMY '/' s with
  | some t => some t
  | none =>
    match strptimeDMY '-' s with
    | some t => some t
    | none =>
      match strptimeYMD s with
      | some t => some t
      | none => strptimeMDY s

/-- Day number of a parsed triple. -/
def tripleDayNum (t : ℕ × ℕ × ℕ) : ℤ := daysFromCivil t.1 t.2.1 t.2.2

/-- `_validate_date` (lines 893-921), with the clock injected: unparsable
and future dates are invalid with their messages; dates more than
`365*10` days old are valid but carry the very-old warning text. -/
def validate_date (now : ℚ) (date_str : String) : Bool × String :=
  match parseDateMulti date_str with
  | none => (false, "Invalid date format: " ++ date_str)
  | some t =>
    if (tripleDayNum t : ℚ) > now then
      (false, "Future date detected: " ++ date_str)
    else if (tripleDayNum t : ℚ) < now - 3650 then
      (true, "Warning: Very old date: " ++ date_str)
    else (true, "Date valid")

/-! ## Python floats -/

/-- Un-signed part of Python `float(s)` on the digits-and-dot fragment:
digits with at most one decimal point and at least one digit.  (The
pipeline only ever feeds `float` strings matched by its digit/dot/comma
regexes, so the exponent/inf/nan forms of `float` cannot occur.) -/
def parseUnsignedDecimal (l : List Char) : Option ℚ :=
  match splitOnChar '.' l with
  | [ip] =>
    if ip ≠ [] ∧ ip.all Char.isDigit then some (digitsToNat ip) else none
  | [ip, fp] =>
    if (ip ≠ [] ∨ fp ≠ []) ∧ ip.all Char.isDigit ∧ fp.all Char.isDigit then
      some ((digitsToNat ip : ℚ) + (digitsToNat fp : ℚ) / ((10 : ℚ) ^ fp.length))
    else none
  | _ => none

/-- Python `float(s)` on the sign/digits/dot fragment; `none` models the
raised `ValueError`. -/
def pyFloat (s : String) : Option ℚ :=
  match (pyStrip s).data with
  | '+' :: r => parseUnsignedDecimal r
  | '-' :: r => (parseUnsignedDecimal r).map Neg.neg
  | l => parseUnsignedDecimal l

/-- The `ValueError` message of a failed `float(s)`. -/
def pyFloatErrMsg (s : String) : String :=
  "could not convert string to float: '" ++ s ++ "'"

/-- Smallest `k ≤ 30` with `den ∣ 10^k` (every float the pipeline produces
is an exact decimal, so such a `k` exists for them). -/
def decimalExponent (den : ℕ) : ℕ :=
  ((List.range 31).find? (fun k => 10 ^ k % den == 0)).getD 30

/-- Python `str()` of a float holding an exact decimal value: integral
values print with a trailing `.0`, others with their terminating decimal
expansion. -/
def pyFloatStr (q : ℚ) : String :=
  let sign := if q < 0 then "-" else ""
  let n := q.num.natAbs
  let k := decimalExponent q.den
  let scaled := n * 10 ^ k / q.den
  let ip := scaled / 10 ^ k
  let fracVal := scaled % 10 ^ k
  let fracRaw := toString fracVal
  let frac : String := ⟨List.replicate (k - fracRaw.length) '0' ++ fracRaw.data⟩
  let fracTrimmed : String := ⟨(frac.data.reverse.dropWhile (· = '0')).reverse⟩
  sign ++ toString ip ++ "." ++
    (if fracTrimmed.data = [] then "0" else fracTrimmed)

/-- Zero-padded two-digit rendering (`%d` / `%m` of `strftime`). -/
def pad2 (n : ℕ) : String := if n < 10 then "0" ++ toString n else toString n

/-- `date.strftime('%d/%m/%Y')` of a parsed `(y, m, d)` triple. -/
def formatDMY (t : ℕ × ℕ × ℕ) : String :=
  pad2 t.2.2 ++ "/" ++ pad2 t.2.1 ++ "/" ++ toString t.1

/-- Python `x % 1000 == 0` for an exact-decimal float value: an integer
divisible by 1000. -/
def isMultipleOf1000 (q : ℚ) : Bool := q.den == 1 && q.num % 1000 == 0

/-- `amt.replace(',', '')`. -/
def removeCommas (s : String) : String := ⟨s.data.filter (fun c => c ≠ ',')⟩

/-- The left-to-right list comprehension `[float(amt.replace(',', ''))
for amt in amounts]`: the first unparsable entry raises. -/
def parseAmounts : List String → Except String (List ℚ)
  | [] => .ok []
  | a :: rest =>
    match pyFloat (removeCommas a) with
    | none => .error (pyFloatErrMsg (removeCommas a))
    | some v => (parseAmounts rest).map (fun l => v :: l)

/-! ## The regex table of `_parse_document_fields`
(scholarship_verification.py lines 172-254)

Every pattern is compiled with `re.IGNORECASE`, which makes the literals
case-insensitive and collapses `[A-Z]`/`[a-z]` to "any letter".  The
patterns are built from literal alternations, character-class runs and
bounded digit runs whose neighbouring classes are disjoint, so the
backtracking regex engine behaves deterministically: a greedy run is the
maximal run, and an ordered alternation `(?:A|B|...)` tries each
alternative in order with the whole rest of the pattern (embedded here as
the continuation `k` of `tryAlts`).  `re.search` is leftmost-position
scanning (`searchPos`); `re.finditer` scans and resumes after each match
(`scanAll`). -/

/-- Python regex `\s` (ASCII fragment). -/
def isSpaceChar (c : Char) : Bool :=
  c == ' ' || c == '\t' || c == '\n' || c == '\r' || c == '\x0b' || c == '\x0c'

/-- Python regex `\w` (ASCII fragment): letters, digits, underscore. -/
def isWordChar (c : Char) : Bool := c.isAlphanum || c == '_'

/-- The class `[:\s]`. -/
def isColonSpace (c : Char) : Bool := c == ':' || isSpaceChar c

/-- The date-separator class: slash or dash. -/
def isDateSep (c : Char) : Bool := c == '/' || c == '-'

/-- Case-insensitive literal match, returning the rest of the input. -/
def matchLitCI : List Char → List Char → Option (List Char)
  | [], l => some l
  | _ :: _, [] => none
  | a :: as, c :: cs =>
    if a.toLower = c.toLower then matchLitCI as cs else none

/-- Maximal run of characters satisfying `p`, with the rest. -/
def takeRun (p : Char → Bool) : List Char → List Char × List Char
  | [] => ([], [])
  | c :: cs =>
    if p c then
      let (r, rest) := takeRun p cs
      (c :: r, rest)
    else ([], c :: cs)

/-- Ordered alternation with backtracking: try each literal alternative in
order, running the rest of the pattern `k` after it; the first alternative
whose continuation succeeds wins. -/
def tryAlts (alts : List (List Char)) (l : List Char)
    (k : List Char → Option α) : Option α :=
  match alts with
  | [] => none
  | a :: rest =>
    match matchLitCI a l with
    | some after =>
      match k after with
      | some r => some r
      | none => tryAlts rest l k
    | none => tryAlts rest l k

/-- `re.search`: try the position matcher at every position, leftmost
first. -/
def searchPos (m : List Char → Option α) : List Char → Option α
  | [] => m []
  | c :: cs =>
    match m (c :: cs) with
    | some r => some r
    | none => searchPos m cs

/-- `re.finditer`: scan left to right, resuming after the end of each match
(every matcher consumes at least one character; the fuel is the input
length). -/
def scanAll (m : List Char → Option (List Char × List Char)) :
    ℕ → List Char → List (List Char)
  | 0, _ => []
  | _ + 1, [] => []
  | fuel + 1, c :: cs =>
    match m (c :: cs) with
    | some (cap, rest) => cap :: scanAll m fuel rest
    | none => scanAll m fuel cs

/-- One word `[A-Z][a-z]+` (under IGNORECASE: at least two letters). -/
def nameWord (l : List Char) : Option (List Char × List Char) :=
  let (w, rest) := takeRun Char.isAlpha l
  if w.length ≥ 2 then some (w, rest) else none

/-- The greedy tail `(?:\s+[A-Z][a-z]+)+` (zero or more iterations here;
`nameGroup` requires at least one). -/
def nameTail : ℕ → List Char → List Char × List Char
  | 0, l => ([], l)
  | fuel + 1, l =>
    let (ws, rest) := takeRun isSpaceChar l
    if ws ≠ [] then
      match nameWord rest with
      | some (w, rest2) =>
        let (t, rest3) := nameTail fuel rest2
        (ws ++ w ++ t, rest3)
      | none => ([], l)
    else ([], l)

/-- The capture `([A-Z][a-z]+(?:\s+[A-Z][a-z]+)+)`: two or more words. -/
def nameGroup (l : List Char) : Option (List Char × List Char) :=
  match nameWord l with
  | none => none
  | some (w, rest) =>
    let (t, rest2) := nameTail rest.length rest
    if t = [] then none else some (w ++ t, rest2)

/-- Name pattern 1:
`(?:Name|Student Name|Applicant Name)[:\s]+([A-Z][a-z]+(?:\s+[A-Z][a-z]+)+)`. -/
def nameLabeled (l : List Char) : Option (List Char) :=
  tryAlts ["Name".data, "Student Name".data, "Applicant Name".data] l
    (fun after =>
      let (cs, rest) := takeRun isColonSpace after
      if cs = [] then none
      else (nameGroup rest).map Prod.fst)

/-- Name pattern 2:
`(?:Mr\.|Ms\.|Miss)\s+([A-Z][a-z]+(?:\s+[A-Z][a-z]+)+)`. -/
def nameHonorific (l : List Char) : Option (List Char) :=
  tryAlts ["Mr.".data, "Ms.".data, "Miss".data] l
    (fun after =>
      let (ws, rest) := takeRun isSpaceChar after
      if ws = [] then none
      else (nameGroup rest).map Prod.fst)

/-- Student-ID pattern 1:
`(?:Student ID|ID No|Roll No|Registration No)[:\s]+([A-Z0-9]+)`. -/
def idLabeled (l : List Char) : Option (List Char) :=
  tryAlts ["Student ID".data, "ID No".data, "Roll No".data,
    "Registration No".data] l
    (fun after =>
      let (cs, rest) := takeRun isColonSpace after
      if cs = [] then none
      else
        let (idrun, _) := takeRun Char.isAlphanum rest
        if idrun = [] then none else some idrun)

/-- Student-ID pattern 2: `\b([A-Z]\d{5,10})\b`, scanning with the previous
character to decide the left word boundary. -/
def idBareScan : Option Char → List Char → Option (List Char)
  | _, [] => none
  | prev, c :: cs =>
    let boundary := match prev with
      | none => true
      | some p => !isWordChar p
    if boundary && c.isAlpha then
      let (ds, rest) := takeRun Char.isDigit cs
      let rightBoundary := match rest with
        | [] => true
        | r :: _ => !isWordChar r
      if 5 ≤ ds.length ∧ ds.length ≤ 10 ∧ rightBoundary = true then
        some (c :: ds)
      else idBareScan (some c) cs
    else idBareScan (some c) cs

/-- `\d{1,2}` plus a slash-or-dash separator: the maximal digit run must have length 1 or 2 and be
followed by a separator. -/
def dayPart (l : List Char) : Option (List Char × Char × List Char) :=
  let (ds, rest) := takeRun Char.isDigit l
  if ds ≠ [] ∧ ds.length ≤ 2 then
    match rest with
    | c :: cs => if isDateSep c then some (ds, c, cs) else none
    | [] => none
  else none

/-- The date body `\d{1,2}<sep>\d{1,2}<sep>\d{2,4}` at the current position:
capture and rest after the match. -/
def dateCore (l : List Char) : Option (List Char × List Char) :=
  match dayPart l with
  | none => none
  | some (d1, s1, r1) =>
    match dayPart r1 with
    | none => none
    | some (d2, s2, r2) =>
      let (ys, rest) := takeRun Char.isDigit r2
      if ys.length ≥ 2 then
        some (d1 ++ s1 :: d2 ++ s2 :: ys.take 4, ys.drop 4 ++ rest)
      else none

/-- Date pattern 1:
`(?:Date|Date of Issue|Issued on)[:\s]+(\d{1,2}<sep>\d{1,2}<sep>\d{2,4}) with <sep> the class of slash and dash`. -/
def dateLabeled (l : List Char) : Option (List Char × List Char) :=
  tryAlts ["Date".data, "Date of Issue".data, "Issued on".data] l
    (fun after =>
      let (cs, rest) := takeRun isColonSpace after
      if cs = [] then none else dateCore rest)

/-- `(?:,\d{3})*`: greedily consume comma-plus-exactly-three-digit
groups. -/
def amountGroups : ℕ → List Char → List Char × List Char
  | 0, l => ([], l)
  | fuel + 1, l =>
    match l with
    | ',' :: rest =>
      let ds := rest.take 3
      if ds.length = 3 ∧ ds.all Char.isDigit then
        let (t, r) := amountGroups fuel (rest.drop 3)
        (',' :: (ds ++ t), r)
      else ([], l)
    | _ => ([], l)

/-- The amount body `(\d{1,3}(?:,\d{3})*(?:\.\d{2})?)` at the current
position. -/
def amountCore (l : List Char) : Option (List Char × List Char) :=
  let (ds, rest0) := takeRun Char.isDigit l
  if ds = [] then none
  else
    let d1 := ds.take 3
    let rest1 := ds.drop 3 ++ rest0
    let (grps, rest2) := amountGroups rest1.length rest1
    match rest2 with
    | '.' :: r =>
      let fs := r.take 2
      if fs.length = 2 ∧ fs.all Char.isDigit then
        some (d1 ++ grps ++ '.' :: fs, r.drop 2)
      else some (d1 ++ grps, rest2)
    | _ => some (d1 ++ grps, rest2)

/-- Amount pattern 1:
`(?:Amount|Fee|Total|Rs\.?|INR)[:\s]*(...)`; the optional dot of `Rs\.?`
expands to the ordered alternatives `Rs.` then `Rs`. -/
def amountLabeled (l : List Char) : Option (List Char × List Char) :=
  tryAlts ["Amount".data, "Fee".data, "Total".data, "Rs.".data, "Rs".data,
    "INR".data] l
    (fun after =>
      let (_, rest) := takeRun isColonSpace after
      amountCore rest)

/-- Amount pattern 2: `₹\s*(...)`. -/
def amountRupee (l : List Char) : Option (List Char × List Char) :=
  match l with
  | [] => none
  | c :: cs =>
    if c = '₹' then
      let (_, rest) := takeRun isSpaceChar cs
      amountCore rest
    else none

/-- Grade pattern 1: `(?:CGPA|GPA|Grade)[:\s]+([\d.]+)`. -/
def gradeLabeled (l : List Char) : Option (List Char) :=
  tryAlts ["CGPA".data, "GPA".data, "Grade".data] l
    (fun after =>
      let (cs, rest) := takeRun isColonSpace after
      if cs = [] then none
      else
        let (g, _) := takeRun (fun c => c.isDigit || c == '.') rest
        if g = [] then none else some g)

/-- Grade pattern 2: `(?:Percentage|Marks)[:\s]+(\d+(?:\.\d+)?)\s*%?` (the
trailing `\s*%?` can never fail and does not affect the capture). -/
def gradePercent (l : List Char) : Option (List Char) :=
  tryAlts ["Percentage".data, "Marks".data] l
    (fun after =>
      let (cs, rest) := takeRun isColonSpace after
      if cs = [] then none
      else
        let (ds, r1) := takeRun Char.isDigit rest
        if ds = [] then none
        else
          match r1 with
          | '.' :: r2 =>
            let (fs, _) := takeRun Char.isDigit r2
            if fs = [] then some ds else some (ds ++ '.' :: fs)
          | _ => some ds)

/-- The class `[A-Za-z\s]` of the department capture. -/
def isDeptChar (c : Char) : Bool := c.isAlpha || isSpaceChar c

/-- The terminator `(?:\n|,|\.)` of the department pattern. -/
def isDeptTerm (c : Char) : Bool := c == '\n' || c == ',' || c == '.'

/-- The lazy group `([A-Za-z\s]+?)` followed by `(?:\n|,|\.)`: the shortest
nonempty class run whose next character is a terminator. -/
def deptLazy : List Char → Option (List Char)
  | [] => none
  | c :: rest =>
    if isDeptChar c then
      match rest with
      | [] => none
      | r :: _ =>
        if isDeptTerm r then some [c]
        else (deptLazy rest).map (fun g => c :: g)
    else none

/-- The greedy `[:\s]+` before the overlapping lazy group: try consuming
the longest `[:\s]` run first, shortening on failure, as the engine
backtracks. -/
def deptTryLens (l : List Char) : ℕ → Option (List Char)
  | 0 => none
  | k + 1 =>
    match deptLazy (l.drop (k + 1)) with
    | some g => some g
    | none => deptTryLens l k

/-- Department pattern:
`(?:Department|Branch|Course)[:\s]+([A-Za-z\s]+?)(?:\n|,|\.)`. -/
def deptLabeled (l : List Char) : Option (List Char) :=
  tryAlts ["Department".data, "Branch".data, "Course".data] l
    (fun after =>
      let (cs, _) := takeRun isColonSpace after
      deptTryLens after cs.length)

/-- Year pattern: `(?:Year|Semester)[:\s]+(\d+)`. -/
def yearLabeled (l : List Char) : Option (List Char) :=
  tryAlts ["Year".data, "Semester".data] l
    (fun after =>
      let (cs, rest) := takeRun isColonSpace after
      if cs = [] then none
      else
        let (ds, _) := takeRun Char.isDigit rest
        if ds = [] then none else some ds)

/-- `structured_data` as produced by `_parse_document_fields`: a dict whose
keys are present only when the corresponding field was extracted. -/
structure StructuredData where
  name : Option String := none
  student_id : Option String := none
  dates : Option (List String) := none
  amounts : Option (List String) := none
  grade : Option String := none
  department : Option String := none
  year : Option String := none
deriving Repr, DecidableEq

/-- The date field lists collected by `_parse_document_fields`
(lines 202-213): `finditer` matches of the labeled pattern, then of the
bare pattern, appended into one list. -/
def parsedDates (l : List Char) : List String :=
  (scanAll dateLabeled l.length l ++ scanAll dateCore l.length l).map
    (fun c => (⟨c⟩ : String))

/-- The amount lists collected by `_parse_document_fields`
(lines 215-226): `finditer` matches of the labeled pattern, then of the
rupee pattern, appended into one list. -/
def parsedAmounts (l : List Char) : List String :=
  (scanAll amountLabeled l.length l ++ scanAll amountRupee l.length l).map
    (fun c => (⟨c⟩ : String))

/-- `_parse_document_fields` (lines 172-254): for name, student ID, grade,
department and year the first matching pattern wins (`re.search` plus
`break`, or a single pattern); for dates and amounts the `finditer` matches
of all patterns are collected into one list.  A field key is present
exactly when something matched (for dates/amounts: when the collected list
is nonempty). -/
def parse_document_fields (text : String) : StructuredData :=
  let l := text.data
  let nameF :=
    match searchPos nameLabeled l with
    | some n => some (pyStrip ⟨n⟩)
    | none => (searchPos nameHonorific l).map (fun n => pyStrip ⟨n⟩)
  let sidF :=
    match searchPos idLabeled l with
    | some i => some (pyStrip ⟨i⟩)
    | none => (idBareScan none l).map (fun i => pyStrip ⟨i⟩)
  let datesF := parsedDates l
  let amountsF := parsedAmounts l
  let gradeF : Option String :=
    match searchPos gradeLabeled l with
    | some g => some ⟨g⟩
    | none => (searchPos gradePercent l).map (fun g => (⟨g⟩ : String))
  let deptF := (searchPos deptLabeled l).map (fun d => pyStrip ⟨d⟩)
  let yearF : Option String := (searchPos yearLabeled l).map (fun y => ⟨y⟩)
  { name := nameF, student_id := sidF,
    dates := if datesF ≠ [] then some datesF else none,
    amounts := if amountsF ≠ [] then some amountsF else none,
    grade := gradeF, department := deptF, year := yearF }

/-- The user record built by the endpoint from the DB row; values can be
`NULL` in the database, hence `Option` values under always-present keys. -/
structure UserData where
  full_name : Option String := none
  student_id : Option String := none
  department : Option String := none
  email : Option String := none
deriving Repr, DecidableEq

/-- One entry of the `matches` / `mismatches` dicts of `verify_identity`. -/
structure MatchEntry where
  document : String
  database : String
  confidence : ℚ
deriving Repr, DecidableEq

/-- Result dict of `verify_identity`. -/
structure IdentityResult where
  status : String
  confidence : ℚ
  «matches» : List (String × MatchEntry)
  mismatches : List (String × MatchEntry)
  issues : List String
deriving Repr, DecidableEq

/-- Result dict of `verify_document_authenticity`; the `checks` sub-dict is
flattened into optional fields (a key is present iff the field is `some`). -/
structure AuthenticityResult where
  status : String
  confidence : ℚ
  stamp_detected : Option Bool
  signature_detected : Option Bool
  image_quality : Option ℚ
  ocr_confidence : Option ℚ
  issues : List String
deriving Repr, DecidableEq

/-- One entry of the `checks` dict of `verify_data_validity`. -/
structure CheckOutcome where
  met : Bool
  value : ℚ
  required : ℚ
deriving Repr, DecidableEq

/-- Result dict of `verify_data_validity`. -/
structure ValidityResult where
  status : String
  confidence : ℚ
  checks : List (String × CheckOutcome)
  issues : List String
  warnings : List String
deriving Repr, DecidableEq

/-- Result dict of `check_completeness`. -/
structure CompletenessResult where
  status : String
  confidence : ℚ
  present : List String
  missing : List String
  issues : List String
deriving Repr, DecidableEq

/-- Result dict of `ai_fraud_detection`. -/
structure FraudResult where
  status : String
  risk_level : String
  confidence : ℚ
  anomalies : List String
  red_flags : List String
  warnings : List String
deriving Repr, DecidableEq

/-- The `all_verification_results` dict handed to `auto_decision`; a field is
`none` when the corresponding entry is the empty dict `{}` (so `.get` of
`status` / `confidence` yields `None` / the default). -/
structure AllResults where
  identity : Option IdentityResult := none
  authenticity : Option AuthenticityResult := none
  validity : Option ValidityResult := none
  completeness : Option CompletenessResult := none
  fraud : Option FraudResult := none
deriving Repr, DecidableEq

/-- Result dict of `auto_decision`. -/
structure Decision where
  action : String
  confidence : ℚ
  reason : String
  requires_manual_review : Bool
  review_priority : String
deriving Repr, DecidableEq

/-! ## `_calculate_string_similarity` (scholarship_verification.py
lines 816-835) -/

/-- `_calculate_string_similarity`: equal strings score 1, an empty operand
scores 0, otherwise the count of position-wise equal characters divided by
the longer length. -/
def calculate_string_similarity (str1 str2 : String) : ℚ :=
  if str1 = str2 then 1
  else if str1.length = 0 ∨ str2.length = 0 then 0
  else
    ((List.zip str1.data str2.data).countP (fun p => p.1 == p.2) : ℚ) /
      (max str1.length str2.length : ℚ)

/-- Python's `in` operator on strings: contiguous substring test. -/
def isSubstrOf (needle hay : String) : Bool :=
  hay.data.tails.any (fun t => needle.data.isPrefixOf t)

/-! ## `verify_identity` (scholarship_verification.py lines 258-350)

The three field checks run in sequence and mutate one shared result dict;
each is embedded as a step that either extends the accumulated
matches/mismatches/issues or aborts on the caught `AttributeError` raised
when the database value under an always-present key is `None`
(`None.lower()`), producing the `status = 'error'` result of the
`except` block (lines 346-350). -/

/-- The `except`-block result of `verify_identity`: `status='error'`, the
accumulated state so far, and the stringified exception appended to
`issues`; `confidence` keeps its initial `0.0`. -/
def identityError (ms mms : List (String × MatchEntry))
    (issues : List String) : IdentityResult :=
  { status := "error", confidence := 0, «matches» := ms, mismatches := mms,
    issues := issues ++
      ["Verification error: 'NoneType' object has no attribute 'lower'"] }

/-- Lines 331-342 of `verify_identity`: overall confidence
`|matches| / (|matches| + |mismatches|)` (left at `0.0` when there were no
comparable fields) and the status thresholds. -/
def identityFinish (ms mms : List (String × MatchEntry))
    (issues : List String) : IdentityResult :=
  let total := ms.length + mms.length
  let conf : ℚ := if total > 0 then (ms.length : ℚ) / (total : ℚ) else 0
  let status :=
    if conf ≥ 0.8 then "verified"
    else if conf ≥ 0.5 then "review_required"
    else "failed"
  { status := status, confidence := conf, «matches» := ms, mismatches := mms,
    issues := issues }

/-- Department check of `verify_identity` (lines 316-329): substring match
in either direction on the lowered strings, confidence 0.9 on match; a
mismatch records no issue string. -/
def identityDeptStep (s : StructuredData) (u : UserData)
    (ms mms : List (String × MatchEntry)) (issues : List String) :
    IdentityResult :=
  match s.department with
  | none => identityFinish ms mms issues
  | some docDept =>
    match u.department with
    | none => identityError ms mms issues
    | some dbDept =>
      if isSubstrOf (pyLower docDept) (pyLower dbDept) ∨
         isSubstrOf (pyLower dbDept) (pyLower docDept) then
        identityFinish (ms ++ [("department",
          ⟨docDept, dbDept, 0.9⟩)]) mms issues
      else
        identityFinish ms (mms ++ [("department",
          ⟨docDept, dbDept, 0⟩)]) issues

/-- Student-ID check of `verify_identity` (lines 299-313): exact
case-insensitive equality, confidence 1.0 or 0.0. -/
def identityIdStep (s : StructuredData) (u : UserData)
    (ms mms : List (String × MatchEntry)) (issues : List String) :
    IdentityResult :=
  match s.student_id with
  | none => identityDeptStep s u ms mms issues
  | some docId =>
    match u.student_id with
    | none => identityError ms mms issues
    | some dbId =>
      if pyLower docId = pyLower dbId then
        identityDeptStep s u (ms ++ [("student_id",
          ⟨docId, dbId, 1⟩)]) mms issues
      else
        identityDeptStep s u ms (mms ++ [("student_id",
          ⟨docId, dbId, 0⟩)])
          (issues ++ ["Student ID mismatch: '" ++ docId ++ "' vs '" ++
            dbId ++ "'"])

/-- `verify_identity` (lines 258-350), starting with the name check
(lines 277-297): position-wise similarity of the lowered, stripped names;
match above 0.8. -/
def verify_identity (extracted : StructuredData) (user : UserData) :
    IdentityResult :=
  match extracted.name with
  | none => identityIdStep extracted user [] [] []
  | some docName =>
    match user.full_name with
    | none => identityError [] [] []
    | some dbName =>
      let sim := calculate_string_similarity
        (pyStrip (pyLower docName)) (pyStrip (pyLower dbName))
      if sim > 0.8 then
        identityIdStep extracted user
          [("name", ⟨docName, dbName, sim⟩)] [] []
      else
        identityIdStep extracted user []
          [("name", ⟨docName, dbName, sim⟩)]
          ["Name mismatch: '" ++ docName ++ "' vs '" ++ dbName ++ "'"]

/-! ## `verify_document_authenticity` (scholarship_verification.py
lines 352-420) -/

/-- Outcome of the pixel-level heuristics over the decoded image.  The
pixel analysis itself (numpy/cv2) is external to the embedding, so its
results are inputs: `openError` models an exception from `Image.open`
(caught by the outer `except`), `stamp` and `signature` are the booleans
from `_detect_stamp_seal` / `_detect_signature` (whose own exceptions
already degrade to `False` inside them), `laplacianVar` is the Laplacian
variance measured in `_assess_image_quality`. -/
structure ImageAnalysis where
  openError : Option String := none
  stamp : Bool := false
  signature : Bool := false
  laplacianVar : ℚ := 0
deriving Repr, DecidableEq

/-- `_assess_image_quality` (lines 876-891): Laplacian variance normalized
by 1000 and clamped to 1. -/
def assess_image_quality (laplacianVar : ℚ) : ℚ :=
  min (laplacianVar / 1000) 1

/-- Lines 389-412 of `verify_document_authenticity`: the OCR-confidence
check, the weighted confidence
`0.3·stamp + 0.2·signature + 0.2·quality + 0.3·ocr` (missing `checks` keys
default to `False`/`0`), and the status thresholds. -/
def authenticityFinish (stamp signature : Option Bool) (quality : Option ℚ)
    (issues0 : List String) (ocrConf : ℚ) : AuthenticityResult :=
  let issues := issues0 ++
    (if ocrConf < 0.5 then
      ["Low OCR confidence - document may be unclear or tampered"] else [])
  let conf := (if stamp.getD false then (0.3 : ℚ) else 0) +
    (if signature.getD false then (0.2 : ℚ) else 0) +
    quality.getD 0 * 0.2 + ocrConf * 0.3
  let status :=
    if conf ≥ 0.7 then "verified"
    else if conf ≥ 0.4 then "review_required"
    else "suspicious"
  { status := status, confidence := conf, stamp_detected := stamp,
    signature_detected := signature, image_quality := quality,
    ocr_confidence := some ocrConf, issues := issues }

/-- `verify_document_authenticity` (lines 352-420): the stamp / signature /
quality heuristics run only for `.jpg`/`.jpeg`/`.png` files; for every
other extension the `checks` dict holds only the OCR confidence. -/
def verify_document_authenticity (file_extension : String)
    (img : ImageAnalysis) (extractedConfidence : ℚ) : AuthenticityResult :=
  if pyLower file_extension ∈ [".jpg", ".jpeg", ".png"] then
    match img.openError with
    | some e =>
      { status := "error", confidence := 0, stamp_detected := none,
        signature_detected := none, image_quality := none,
        ocr_confidence := none,
        issues := ["Authenticity check error: " ++ e] }
    | none =>
      let quality := assess_image_quality img.laplacianVar
      authenticityFinish (some img.stamp) (some img.signature) (some quality)
        (if quality < 0.3 then
          ["Low image quality - possible screenshot or photocopy"] else [])
        extractedConfidence
  else
    authenticityFinish none none none [] extractedConfidence

/-! ## `check_completeness` (scholarship_verification.py lines 513-565) -/

/-- `check_completeness`: the uploaded documents are given by their
`document_type` strings (the endpoint passes `{'document_type': ...}` dicts).
Empty types are skipped when building `uploaded_types`. -/
def check_completeness (uploaded_documents : List String)
    (required_documents : List String) : CompletenessResult :=
  let uploaded_types := (uploaded_documents.map pyLower).filter (fun t => t ≠ "")
  let present := required_documents.filter
    (fun rd => uploaded_types.contains (pyLower rd))
  let missing := required_documents.filter
    (fun rd => ¬ uploaded_types.contains (pyLower rd))
  let issues := missing.map (fun rd => "Missing required document: " ++ rd)
  let confidence : ℚ :=
    if required_documents.length > 0 then
      (present.length : ℚ) / (required_documents.length : ℚ)
    else 0
  let status :=
    if confidence = 1 then "complete"
    else if confidence ≥ 0.7 then "mostly_complete"
    else "incomplete"
  { status := status, confidence := confidence, present := present,
    missing := missing, issues := issues }

/-! ## `verify_data_validity` (scholarship_verification.py lines 422-511) -/

/-- The `scholarship_requirements` dict; both keys are optional and carry
numbers when present. -/
structure Requirements where
  min_grade : Option ℚ := none
  max_income : Option ℚ := none
deriving Repr, DecidableEq

/-- The `except`-block result of `verify_data_validity` (lines 507-511):
status `error`, the checks and issues accumulated before the exception,
the stringified exception appended to `issues`, and the initial
`confidence = 0.0`.  (The only fallible operations, the `float()` calls,
run before the date loop, so `warnings` is still empty.) -/
def validityError (checks : List (String × CheckOutcome))
    (issues : List String) (msg : String) : ValidityResult :=
  { status := "error", confidence := 0, checks := checks,
    issues := issues ++ ["Validity check error: " ++ msg], warnings := [] }

/-- Lines 489-503 of `verify_data_validity`: confidence is the fraction of
met checks (the neutral 0.5 when no checks ran), and the status mapping,
where `valid` additionally requires an empty `issues` list. -/
def validityFinish (checks : List (String × CheckOutcome))
    (issues warnings : List String) : ValidityResult :=
  let conf : ℚ :=
    if checks.length > 0 then
      ((checks.countP (fun c => c.2.met)) : ℚ) / (checks.length : ℚ)
    else 0.5
  let status :=
    if conf ≥ 0.8 ∧ issues = [] then "valid"
    else if conf ≥ 0.5 then "review_required"
    else "invalid"
  { status := status, confidence := conf, checks := checks,
    issues := issues, warnings := warnings }

/-- Grade check of `verify_data_validity` (lines 443-459): runs when both
the parsed `grade` field and `min_grade` are present; `float(grade)` can
raise. -/
def validityGradeStep (e : StructuredData) (req : Requirements) :
    Except String (List (String × CheckOutcome) × List String) :=
  match e.grade, req.min_grade with
  | some g, some mg =>
    match pyFloat g with
    | none => .error (pyFloatErrMsg g)
    | some dg =>
      if dg ≥ mg then
        .ok ([("grade_requirement", ⟨true, dg, mg⟩)], [])
      else
        .ok ([("grade_requirement", ⟨false, dg, mg⟩)],
          ["Grade " ++ pyFloatStr dg ++ " below minimum requirement " ++
            pyFloatStr mg])
  | _, _ => .ok ([], [])

/-- Income check of `verify_data_validity` (lines 461-480): the largest
parsed amount (0 for an empty list) must not exceed `max_income`. -/
def validityIncomeStep (e : StructuredData) (req : Requirements) :
    Except String (List (String × CheckOutcome) × List String) :=
  match e.amounts, req.max_income with
  | some amts, some maxReq =>
    match parseAmounts amts with
    | .error msg => .error msg
    | .ok vals =>
      let maxDoc : ℚ :=
        match vals with
        | [] => 0
        | v :: rest => rest.foldl max v
      if maxDoc ≤ maxReq then
        .ok ([("income_requirement", ⟨true, maxDoc, maxReq⟩)], [])
      else
        .ok ([("income_requirement", ⟨false, maxDoc, maxReq⟩)],
          ["Income " ++ pyFloatStr maxDoc ++ " exceeds maximum " ++
            pyFloatStr maxReq])
  | _, _ => .ok ([], [])

/-- Date loop of `verify_data_validity` (lines 482-487): each date whose
`_validate_date` verdict is invalid appends the verdict message to
`warnings` (not to `issues`). -/
def validityDateWarnings (now : ℚ) (e : StructuredData) : List String :=
  match e.dates with
  | none => []
  | some ds => ds.filterMap (fun d =>
      let r := validate_date now d
      if r.1 then none else some r.2)

/-- `verify_data_validity` (lines 422-511). -/
def verify_data_validity (now : ℚ) (extracted : StructuredData)
    (req : Requirements) : ValidityResult :=
  match validityGradeStep extracted req with
  | .error msg => validityError [] [] msg
  | .ok (c1, i1) =>
    match validityIncomeStep extracted req with
    | .error msg => validityError c1 i1 msg
    | .ok (c2, i2) =>
      validityFinish (c1 ++ c2) (i1 ++ i2)
        (validityDateWarnings now extracted)

/-! ## `ai_fraud_detection` (scholarship_verification.py lines 569-654) -/

/-- `_is_duplicate_document` (lines 923-943): over the keys present in both
documents among `{name, student_id, grade}`, the fraction of
case-insensitively equal values must exceed 0.8. -/
def is_duplicate_document (doc1 doc2 : StructuredData) : Bool :=
  let comps := [(doc1.name, doc2.name), (doc1.student_id, doc2.student_id),
    (doc1.grade, doc2.grade)].filterMap (fun p =>
      match p with
      | (some a, some b) => some (pyLower a == pyLower b)
      | _ => none)
  if comps.length = 0 then false
  else decide (((comps.countP id : ℚ) / (comps.length : ℚ)) > 0.8)

/-- Date-anomaly phase of `ai_fraud_detection` (lines 598-612): only runs
with more than one parsed date; each date parsing under `%d/%m/%Y` and
lying in the future contributes a warning carrying the re-formatted
(zero-padded) date. -/
def fraudDateWarnings (now : ℚ) (s : StructuredData) : List String :=
  match s.dates with
  | none => []
  | some ds =>
    if ds.length > 1 then
      (ds.filterMap (fun d => strptimeDMY '/' d)).filterMap (fun t =>
        if (tripleDayNum t : ℚ) > now then
          some ("Future date detected: " ++ formatDMY t)
        else none)
    else []

/-- Amount-anomaly phase of `ai_fraud_detection` (lines 614-621): if every
parsed amount is an exact multiple of 1000 and there is more than one, warn;
the `float()` calls can raise. -/
def fraudAmountWarnings (s : StructuredData) : Except String (List String) :=
  match s.amounts with
  | none => .ok []
  | some amts =>
    match parseAmounts amts with
    | .error msg => .error msg
    | .ok vals =>
      if vals ≠ [] ∧ vals.countP isMultipleOf1000 = vals.length ∧
          vals.length > 1 then
        .ok ["All amounts are round numbers - verify authenticity"]
      else .ok []

/-- `ai_fraud_detection` (lines 569-654); `now` is the injected clock and
`history` the prior documents' `structured_data` dicts.  The RAG policy
phase is a no-op: `_rag_policy_check` always returns `{'issues': []}`
(lines 656-670), so `anomalies` stays empty. -/
def ai_fraud_detection (now : ℚ) (structured : StructuredData)
    (history : List StructuredData) : FraudResult :=
  let redFlags := List.replicate
    (history.countP (fun past => is_duplicate_document structured past))
    "Possible duplicate submission detected"
  let riskAfterLoop := if redFlags ≠ [] then "high" else "low"
  let dateWarns := fraudDateWarnings now structured
  match fraudAmountWarnings structured with
  | .error msg =>
    { status := "error", risk_level := riskAfterLoop, confidence := 0,
      anomalies := [],
      red_flags := redFlags ++ ["Fraud detection error: " ++ msg],
      warnings := dateWarns }
  | .ok amtWarns =>
    let warns := dateWarns ++ amtWarns
    let anomalies : List String := []
    let score : ℚ := (redFlags.length : ℚ) * 0.5 +
      (anomalies.length : ℚ) * 0.3 + (warns.length : ℚ) * 0.1
    let conf : ℚ := 1 - min (score / 2) 1
    if score > 1 then
      { status := "requires_review", risk_level := "high", confidence := conf,
        anomalies := anomalies, red_flags := redFlags, warnings := warns }
    else if score > 0.5 then
      { status := "review_recommended", risk_level := "medium",
        confidence := conf, anomalies := anomalies, red_flags := redFlags,
        warnings := warns }
    else
      { status := "passed", risk_level := "low", confidence := conf,
        anomalies := anomalies, red_flags := redFlags, warnings := warns }

/-! ## `extract_text_with_ocr` (scholarship_verification.py lines 37-170) -/

/-- The `extracted_data` dict. -/
structure ExtractedData where
  text : String
  confidence : ℚ
  method : String
  structured_data : StructuredData
deriving Repr, DecidableEq

/-- The external extraction collaborators, injected: the pdf/docx text
extractors of `DocumentProcessor` (whose raised exceptions are modelled as
`.error`), the `settings.ENABLE_OCR` flag, and the pytesseract
`image_to_data` rows as (token, confidence) pairs — `.error` standing for
any exception inside `_ocr_from_image` (image decoding included). -/
structure ExtractDeps where
  pdfText : Except String String := .ok ""
  ocrEnabled : Bool := true
  imageOcrData : Except String (List (String × ℤ)) := .ok []
  docxText : Except String String := .ok ""
deriving Repr

/-- The valid detections of `_ocr_from_image` (`int(conf) > 0`,
lines 120-123). -/
def ocrValidRows (rows : List (String × ℤ)) : List (String × ℤ) :=
  rows.filter (fun p => p.2 > 0)

/-- The average confidence of `_ocr_from_image` (line 126): mean of the
valid confidences, 0 when there are none. -/
def ocrImageAverage (rows : List (String × ℤ)) : ℚ :=
  if ocrValidRows rows ≠ [] then
    (((ocrValidRows rows).map Prod.snd).sum : ℚ) /
      ((ocrValidRows rows).length : ℚ)
  else 0

/-- `_ocr_from_image` (lines 96-134): its own `try` turns any failure into
`("", 0.0)`; otherwise the tokens with positive confidence are joined with
spaces and the mean confidence is normalized by 100. -/
def ocr_from_image (enabled : Bool)
    (data : Except String (List (String × ℤ))) : String × ℚ :=
  match data with
  | .error _ => ("", 0)
  | .ok rows =>
    if enabled then
      (String.intercalate " " ((ocrValidRows rows).map Prod.fst),
        ocrImageAverage rows / 100)
    else ("", 0)

/-- `_ocr_from_pdf` (lines 136-149): not implemented; always `("", 0.0)`
(in its `except` branch too). -/
def ocr_from_pdf : String × ℚ := ("", 0)

/-- Lines 78-84: the returned dict, with `structured_data` parsed only from
nonempty text. -/
def mkExtracted (text : String) (conf : ℚ) (method : String) :
    ExtractedData :=
  { text := text, confidence := conf, method := method,
    structured_data :=
      if text ≠ "" then parse_document_fields text else {} }

/-- The `except`-block result of `extract_text_with_ocr` (lines 86-94). -/
def extractError : ExtractedData :=
  { text := "", confidence := 0, method := "error", structured_data := {} }

/-- `extract_text_with_ocr` (lines 37-94): PDFs try the native text layer
first and fall back to OCR when the result is empty or its stripped length
is not above 100; images run preprocessing plus OCR; DOCX uses its text
layer at confidence 0.95; any other extension leaves the initial
`('', 0.0, 'none')` values. -/
def extract_text_with_ocr (deps : ExtractDeps) (file_extension : String) :
    ExtractedData :=
  let ext := pyLower file_extension
  if ext = ".pdf" then
    match deps.pdfText with
    | .error _ => extractError
    | .ok t =>
      if t ≠ "" ∧ (pyStrip t).length > 100 then
        mkExtracted t 0.95 "pdf_text_extraction"
      else
        mkExtracted ocr_from_pdf.1 ocr_from_pdf.2 "ocr_pdf"
  else if ext ∈ [".jpg", ".jpeg", ".png", ".tiff", ".bmp"] then
    let r := ocr_from_image deps.ocrEnabled deps.imageOcrData
    mkExtracted r.1 r.2 "ocr_image"
  else if ext = ".docx" then
    match deps.docxText with
    | .error _ => extractError
    | .ok t => mkExtracted t 0.95 "docx_extraction"
  else
    mkExtracted "" 0 "none"

/-! ## `auto_decision` (scholarship_verification.py lines 674-756) -/

/-- The weighted overall confidence computed by `auto_decision`
(lines 697-705); a missing check contributes its `.get('confidence', 0)`
default of `0`. -/
def weightedConfidence (r : AllResults) : ℚ :=
  (Option.map IdentityResult.confidence r.identity).getD 0 * 0.25 +
  (Option.map AuthenticityResult.confidence r.authenticity).getD 0 * 0.20 +
  (Option.map ValidityResult.confidence r.validity).getD 0 * 0.25 +
  (Option.map CompletenessResult.confidence r.completeness).getD 0 * 0.15 +
  (Option.map FraudResult.confidence r.fraud).getD 0 * 0.15

/-- The `critical_issues` list collected by `auto_decision` (lines 707-723),
in source order. -/
def criticalIssues (r : AllResults) : List String :=
  (if Option.map IdentityResult.status r.identity = some "failed" then
    ["Identity verification failed"] else []) ++
  (if Option.map AuthenticityResult.status r.authenticity = some "suspicious" then
    ["Document authenticity suspicious"] else []) ++
  (if Option.map ValidityResult.status r.validity = some "invalid" then
    ["Eligibility criteria not met"] else []) ++
  (if Option.map CompletenessResult.status r.completeness = some "incomplete" then
    ["Required documents missing"] else []) ++
  (if Option.map FraudResult.risk_level r.fraud = some "high" then
    ["High fraud risk detected"] else [])

/-- `auto_decision` (lines 674-756). -/
def auto_decision (r : AllResults) : Decision :=
  if criticalIssues r ≠ [] then
    { action := "reject", confidence := weightedConfidence r,
      reason := String.intercalate "; " (criticalIssues r),
      requires_manual_review := true, review_priority := "high" }
  else if weightedConfidence r ≥ 0.8 then
    { action := "approve", confidence := weightedConfidence r,
      reason := "All verification checks passed successfully",
      requires_manual_review := false, review_priority := "normal" }
  else if weightedConfidence r ≥ 0.6 then
    { action := "review", confidence := weightedConfidence r,
      reason := "Some verification checks require manual review",
      requires_manual_review := true, review_priority := "medium" }
  else
    { action := "review", confidence := weightedConfidence r,
      reason := "Multiple verification checks failed or incomplete",
      requires_manual_review := true, review_priority := "high" }

/-! ## `verify_scholarship_request` aggregation
(api/v1/endpoints/scholarship_verification.py lines 287-394) -/

/-- The per-document processing inputs of the endpoint loop when reading
and extracting the file did not raise: the file extension, the extraction
result and the image-analysis inputs. -/
structure DocPayload where
  ext : String
  extracted : ExtractedData
  img : ImageAnalysis
deriving Repr, DecidableEq

/-- One uploaded document as the endpoint sees it: its DB `document_type`
(used for completeness even when processing fails) and the processing
payload — `none` models an exception caught by the per-document `except`
(lines 344-350), which records an error entry and skips aggregation for
that document. -/
structure DocInput where
  document_type : String
  payload : Option DocPayload
deriving Repr, DecidableEq

/-- The requirement thresholds hardcoded by the endpoint
(`min_grade = 7.0`, `max_income = 600000`). -/
def endpointRequirements : Requirements :=
  { min_grade := some 7, max_income := some 600000 }

/-- The fixed `required_documents` list of the endpoint (lines 367-372). -/
def requiredDocumentsList : List String :=
  ["income_certificate", "grade_sheet", "bank_details", "id_proof"]

/-- The worst-case update of the aggregation loop (lines 337-342): replace
the current representative when the new result's confidence is strictly
lower (or when there is none yet), keeping the first result among ties. -/
def keepWorst (conf : α → ℚ) (best : Option α) (x : α) : Option α :=
  match best with
  | none => some x
  | some b => if conf x < conf b then some x else some b

/-- The request-level identity entry of `all_results`: the loop's
worst-case fold of the per-document identity checks over the processed
documents. -/
def endpointIdentity (user : UserData) (docs : List DocInput) :
    Option IdentityResult :=
  docs.foldl (fun best d =>
    match d.payload with
    | none => best
    | some p => keepWorst IdentityResult.confidence best
        (verify_identity p.extracted.structured_data user)) none

/-- The request-level authenticity entry of `all_results`, analogously. -/
def endpointAuthenticity (docs : List DocInput) :
    Option AuthenticityResult :=
  docs.foldl (fun best d =>
    match d.payload with
    | none => best
    | some p => keepWorst AuthenticityResult.confidence best
        (verify_document_authenticity p.ext p.img
          p.extracted.confidence)) none

/-- The aggregation performed by `verify_scholarship_request`
(lines 287-394): identity and authenticity are worst-case folds over the
processed documents; validity and fraud are computed from the FIRST
document's extraction only (lines 358-364 and 384-391, with an empty
history); completeness uses the document types of all uploaded documents
against the fixed required list.  An empty document list is rejected with
HTTP 400 before the loop, and a failed first document raises `KeyError` at
line 388 (`document_analyses[0]['extracted_data']`); both are modelled as
`.error`. -/
def verify_scholarship_request_agg (now : ℚ) (user : UserData)
    (docs : List DocInput) : Except String AllResults :=
  match docs with
  | [] => .error "No documents found for verification"
  | d0 :: _ =>
    match d0.payload with
    | none => .error "KeyError: extracted_data"
    | some p0 =>
      .ok
        { identity := endpointIdentity user docs,
          authenticity := endpointAuthenticity docs,
          validity := some (verify_data_validity now
            p0.extracted.structured_data endpointRequirements),
          completeness := some (check_completeness
            (docs.map DocInput.document_type) requiredDocumentsList),
          fraud := some (ai_fraud_detection now
            p0.extracted.structured_data []) }

/-- The per-document identity results of the processed documents. -/
def perDocIdentity (user : UserData) (docs : List DocInput) :
    List IdentityResult :=
  docs.filterMap (fun d => d.payload.map (fun p =>
    verify_identity p.extracted.structured_data user))

/-- The per-document authenticity results of the processed documents. -/
def perDocAuthenticity (docs : List DocInput) : List AuthenticityResult :=
  docs.filterMap (fun d => d.payload.map (fun p =>
    verify_document_authenticity p.ext p.img p.extracted.confidence))

/-- The per-document validity results the claim's lowest-confidence rule
would compare (each processed document checked against the endpoint's
fixed requirements). -/
def perDocValidity (now : ℚ) (docs : List DocInput) : List ValidityResult :=
  docs.filterMap (fun d => d.payload.map (fun p =>
    verify_data_validity now p.extracted.structured_data
      endpointRequirements))

/-- The per-document fraud results the claim's lowest-confidence rule would
compare (empty history, as the endpoint passes). -/
def perDocFraud (now : ℚ) (docs : List DocInput) : List FraudResult :=
  docs.filterMap (fun d => d.payload.map (fun p =>
    ai_fraud_detection now p.extracted.structured_data []))

/-- The claim's reading of the aggregation, written from its words: for
each check type with per-document results (identity, authenticity,
validity, fraud — completeness has no per-document result), the
request-level representative is a per-document result with the lowest
confidence across all documents of the request. -/
def lowestConfRepresentative (now : ℚ) (user : UserData)
    (docs : List DocInput) : Prop :=
  ∀ r, verify_scholarship_request_agg now user docs = .ok r →
    (∀ i, r.identity = some i → i ∈ perDocIdentity user docs ∧
      ∀ x ∈ perDocIdentity user docs, i.confidence ≤ x.confidence) ∧
    (∀ a, r.authenticity = some a → a ∈ perDocAuthenticity docs ∧
      ∀ x ∈ perDocAuthenticity docs, a.confidence ≤ x.confidence) ∧
    (∀ v, r.validity = some v → v ∈ perDocValidity now docs ∧
      ∀ x ∈ perDocValidity now docs, v.confidence ≤ x.confidence) ∧
    (∀ f, r.fraud = some f → f ∈ perDocFraud now docs ∧
      ∀ x ∈ perDocFraud now docs, f.confidence ≤ x.confidence)

/-! ## Sample inputs used by witnesses and counterexamples -/

/-- A document whose parsed grade meets the endpoint's minimum. -/
def c4s0 : StructuredData := { grade := some "8.0" }

/-- A document whose parsed grade misses the endpoint's minimum. -/
def c4s1 : StructuredData := { grade := some "5.0" }

/-- Extraction result of the first sample document. -/
def c4e0 : ExtractedData :=
  { text := "Grade: 8.0", confidence := 0.95,
    method := "pdf_text_extraction", structured_data := c4s0 }

/-- Extraction result of the second sample document. -/
def c4e1 : ExtractedData :=
  { text := "Grade: 5.0", confidence := 0.95,
    method := "pdf_text_extraction", structured_data := c4s1 }

/-- First sample document of the two-document request. -/
def c4doc0 : DocInput :=
  { document_type := "grade_sheet",
    payload := some { ext := ".pdf", extracted := c4e0, img := {} } }

/-- Second sample document of the two-document request. -/
def c4doc1 : DocInput :=
  { document_type := "income_certificate",
    payload := some { ext := ".pdf", extracted := c4e1, img := {} } }

/-- A two-document request whose first document passes the validity check
(confidence 1) while the second fails it (confidence 0). -/
def c4docs : List DocInput := [c4doc0, c4doc1]

/-- The date field as the spec claim reads it (first pattern that matches
wins, no merging of matches across the two date patterns) — written from
the claim's words, to be compared with the source behaviour, which
concatenates the `finditer` results of both patterns. -/
def datesFirstPatternWins (l : List Char) : List String :=
  let d1 := scanAll dateLabeled l.length l
  if d1 ≠ [] then d1.map (fun c => (⟨c⟩ : String))
  else (scanAll dateCore l.length l).map (fun c => (⟨c⟩ : String))

/-- Extraction dependencies whose PDF text layer yields exactly 100
non-whitespace characters. -/
def pdf100Sample : ExtractDeps := { pdfText := .ok ⟨List.replicate 100 'a'⟩ }

/-- Extraction dependencies whose PDF text layer yields 101 characters. -/
def pdf101Sample : ExtractDeps := { pdfText := .ok ⟨List.replicate 101 'b'⟩ }

/-- A clock value (days since 1970-01-01): 2026-09-05. -/
def nowSample : ℚ := 20701

/-- A structured document carrying all three fraud duplicate-comparison
fields. -/
def dupDocSample : StructuredData :=
  { name := some "John Doe", student_id := some "A12345",
    grade := some "8.5" }

/-- A structured document whose grade does not parse as a float
(`float('8.5.3')` raises `ValueError`). -/
def badGradeSample : StructuredData := { grade := some "8.5.3" }

/-- A structured document with a grade meeting the endpoint requirement and
one date that parses under none of the four accepted formats. -/
def validWithBadDateSample : StructuredData :=
  { grade := some "8.5", dates := some ["99/99/9999"] }

/-- A structured document with a grade meeting the endpoint requirement and
one date more than ten years old (relative to `nowSample`). -/
def oldDateSample : StructuredData :=
  { grade := some "8.5", dates := some ["12/05/2010"] }

/-- The authenticity result of a PDF with extraction confidence 0.95. -/
def pdfAuthSample : AuthenticityResult :=
  verify_document_authenticity ".pdf" {} 0.95

/-- Five-check input whose only present entry is `pdfAuthSample`. -/
def pdfAuthAll : AllResults := { authenticity := some pdfAuthSample }

/-- A fraud-check result whose risk level is `high` (all other checks are
absent, standing for empty dicts). -/
def fraudHighSample : FraudResult :=
  { status := "requires_review", risk_level := "high", confidence := 0.75,
    anomalies := [], red_flags := ["Possible duplicate submission detected"],
    warnings := [] }

/-! # Theorems -/

/-- C1: the critical-failure short-circuit of `auto_decision`.  If the
identity check failed, the authenticity check is suspicious, the validity
check is invalid, the completeness check is incomplete, or the fraud risk
level is high, then the decision is `reject` with mandatory manual review at
priority `high` — for every value of the five confidences — and the reason
string is the `; `-join of the list holding the message of every triggered
condition (and only those). -/
theorem auto_decision_critical_failure_forces_reject (r : AllResults)
    (h : Option.map IdentityResult.status r.identity = some "failed" ∨
         Option.map AuthenticityResult.status r.authenticity = some "suspicious" ∨
         Option.map ValidityResult.status r.validity = some "invalid" ∨
         Option.map CompletenessResult.status r.completeness = some "incomplete" ∨
         Option.map FraudResult.risk_level r.fraud = some "high") :
    (auto_decision r).action = "reject" ∧
    (auto_decision r).requires_manual_review = true ∧
    (auto_decision r).review_priority = "high" ∧
    (auto_decision r).reason = String.intercalate "; " (criticalIssues r) ∧
    (Option.map IdentityResult.status r.identity = some "failed" ↔
      "Identity verification failed" ∈ criticalIssues r) ∧
    (Option.map AuthenticityResult.status r.authenticity = some "suspicious" ↔
      "Document authenticity suspicious" ∈ criticalIssues r) ∧
    (Option.map ValidityResult.status r.validity = some "invalid" ↔
      "Eligibility criteria not met" ∈ criticalIssues r) ∧
    (Option.map CompletenessResult.status r.completeness = some "incomplete" ↔
      "Required documents missing" ∈ criticalIssues r) ∧
    (Option.map FraudResult.risk_level r.fraud = some "high" ↔
      "High fraud risk detected" ∈ criticalIssues r) := by
  have hcrit : criticalIssues r ≠ [] := by
    unfold criticalIssues
    rcases h with h | h | h | h | h <;> simp [h]
  have hrej : auto_decision r =
      { action := "reject", confidence := weightedConfidence r,
        reason := String.intercalate "; " (criticalIssues r),
        requires_manual_review := true, review_priority := "high" } := by
    unfold auto_decision
    exact if_pos hcrit
  have hmem : ∀ s : String,
      s ∈ criticalIssues r ↔
        (Option.map IdentityResult.status r.identity = some "failed" ∧
          s = "Identity verification failed") ∨
        (Option.map AuthenticityResult.status r.authenticity = some "suspicious" ∧
          s = "Document authenticity suspicious") ∨
        (Option.map ValidityResult.status r.validity = some "invalid" ∧
          s = "Eligibility criteria not met") ∨
        (Option.map CompletenessResult.status r.completeness = some "incomplete" ∧
          s = "Required documents missing") ∨
        (Option.map FraudResult.risk_level r.fraud = some "high" ∧
          s = "High fraud risk detected") := by
    intro s
    unfold criticalIssues
    split <;> split <;> split <;> split <;> split <;>
      simp_all only [List.mem_append, List.mem_singleton, List.not_mem_nil,
        or_false, false_or, true_and, false_and, or_assoc]
  refine ⟨by rw [hrej], by rw [hrej], by rw [hrej], by rw [hrej],
    ?_, ?_, ?_, ?_, ?_⟩ <;> rw [hmem] <;> simp

/-- C1 witness: a concrete five-check input with only the fraud risk level
critical. -/
theorem auto_decision_critical_failure_forces_reject_witness :
    (auto_decision { fraud := some fraudHighSample }).action = "reject" ∧
    (auto_decision { fraud := some fraudHighSample }).review_priority = "high" :=
  have h := auto_decision_critical_failure_forces_reject
    { fraud := some fraudHighSample } (Or.inr (Or.inr (Or.inr (Or.inr rfl))))
  ⟨h.1, h.2.2.1⟩

/-- C6 counterexample: when the required-document list is empty the code
leaves `confidence` at its initial `0.0` (the guard `total_required > 0`
skips the division), so the status is `incomplete` — the claim instead
demands confidence `1.0` and status `complete`. -/
theorem check_completeness_empty_required_counterexample :
    (check_completeness ["income_certificate"] []).confidence = 0 ∧
    (check_completeness ["income_certificate"] []).status = "incomplete" ∧
    ¬ ((check_completeness ["income_certificate"] []).confidence = 1 ∧
       (check_completeness ["income_certificate"] []).status = "complete") := by
  have hc : (check_completeness ["income_certificate"] []).confidence = 0 := rfl
  refine ⟨hc, by norm_num [check_completeness], ?_⟩
  intro hcontra
  rw [hc] at hcontra
  exact absurd hcontra.1 (by norm_num)

/-- C6 (amended): `check_completeness` returns
`confidence = |present| / |required|` and maps it to status `complete`
exactly at confidence 1, `mostly_complete` at confidence ≥ 0.7, and
`incomplete` otherwise — except that an empty required list yields
confidence 0 (not 1.0) and hence status `incomplete`. -/
theorem check_completeness_confidence_and_status (u r : List String) :
    ((check_completeness u r).status = "complete" ↔
      (check_completeness u r).confidence = 1) ∧
    ((check_completeness u r).status = "mostly_complete" ↔
      ((check_completeness u r).confidence ≠ 1 ∧
        (check_completeness u r).confidence ≥ 0.7)) ∧
    ((check_completeness u r).status = "incomplete" ↔
      ((check_completeness u r).confidence ≠ 1 ∧
        ¬ (check_completeness u r).confidence ≥ 0.7)) ∧
    (r ≠ [] → (check_completeness u r).confidence =
      ((check_completeness u r).present.length : ℚ) / (r.length : ℚ)) ∧
    (r = [] → (check_completeness u r).confidence = 0 ∧
      (check_completeness u r).status = "incomplete") := by
  refine ⟨?_, ?_, ?_, ?_, ?_⟩ <;>
    simp only [check_completeness] <;>
    split_ifs <;>
    (simp_all [List.length_pos, List.length_eq_zero];
     all_goals norm_num at *)

/-- C6 witness: three of four required types uploaded gives confidence 3/4
and status `mostly_complete` (the spec's completeness scenario), via the
nonempty-required branch of the theorem. -/
theorem check_completeness_confidence_and_status_witness :
    (check_completeness ["income_certificate", "grade_sheet", "bank_details"]
      ["income_certificate", "grade_sheet", "bank_details", "id_proof"]).confidence =
      ((check_completeness ["income_certificate", "grade_sheet", "bank_details"]
        ["income_certificate", "grade_sheet", "bank_details", "id_proof"]).present.length : ℚ) / 4 :=
  (check_completeness_confidence_and_status
    ["income_certificate", "grade_sheet", "bank_details"]
    ["income_certificate", "grade_sheet", "bank_details", "id_proof"]).2.2.2.1
    (by decide)

/-- Helper: the status thresholds of `authenticityFinish` map any weighted
confidence below 0.4 to `suspicious`. -/
theorem authenticityFinish_status_suspicious (stamp signature : Option Bool)
    (q : Option ℚ) (is0 : List String) (c : ℚ)
    (h : (authenticityFinish stamp signature q is0 c).confidence < 0.4) :
    (authenticityFinish stamp signature q is0 c).status = "suspicious" := by
  simp only [authenticityFinish] at h ⊢
  rw [if_neg (by linarith), if_neg (by linarith)]

/-- C3: for every document whose (lowered) extension is not
`.jpg`/`.jpeg`/`.png` — every PDF and DOCX in particular — the authenticity
check skips the stamp/signature/quality heuristics, so its confidence is
`0.3 ·` the extraction confidence, hence at most 0.3 < 0.4, hence status
`suspicious`; and any decision whose authenticity entry is that result is a
reject with manual review at priority high. -/
theorem non_image_documents_always_rejected (ext : String)
    (img : ImageAnalysis) (c : ℚ) (r : AllResults)
    (hext : pyLower ext ∉ [".jpg", ".jpeg", ".png"])
    (hc1 : c ≤ 1)
    (hr : r.authenticity = some (verify_document_authenticity ext img c)) :
    (verify_document_authenticity ext img c).confidence = 0.3 * c ∧
    (verify_document_authenticity ext img c).confidence ≤ 0.3 ∧
    (verify_document_authenticity ext img c).status = "suspicious" ∧
    (auto_decision r).action = "reject" ∧
    (auto_decision r).requires_manual_review = true ∧
    (auto_decision r).review_priority = "high" := by
  have hres : verify_document_authenticity ext img c =
      authenticityFinish none none none [] c := by
    unfold verify_document_authenticity
    rw [if_neg hext]
  have hconf : (authenticityFinish none none none [] c).confidence =
      0.3 * c := by
    simp only [authenticityFinish, Option.getD_none, if_neg Bool.false_ne_true]
    ring
  have hlt : (authenticityFinish none none none [] c).confidence < 0.4 := by
    rw [hconf]; linarith
  have hstat : (authenticityFinish none none none [] c).status =
      "suspicious" := authenticityFinish_status_suspicious _ _ _ _ _ hlt
  have hvs : (verify_document_authenticity ext img c).status =
      "suspicious" := by rw [hres]; exact hstat
  have hmap : Option.map AuthenticityResult.status r.authenticity =
      some "suspicious" := by rw [hr]; simp [hvs]
  have hcrit : criticalIssues r ≠ [] := by
    unfold criticalIssues; simp [hmap]
  refine ⟨by rw [hres]; exact hconf, by rw [hres, hconf]; linarith, hvs,
    ?_, ?_, ?_⟩ <;>
    · unfold auto_decision
      rw [if_pos hcrit]

/-- C3 witness: a PDF whose extraction confidence is the maximal
text-layer value 0.95. -/
theorem non_image_documents_always_rejected_witness :
    (verify_document_authenticity ".pdf" {} 0.95).status = "suspicious" ∧
    (auto_decision pdfAuthAll).action = "reject" :=
  have h := non_image_documents_always_rejected ".pdf" {} 0.95 pdfAuthAll
    (by decide) (by norm_num) rfl
  ⟨h.2.2.1, h.2.2.2.1⟩

/-- C2 (code bug): a history document agreeing case-insensitively with the
current one on all of name, student ID and grade is detected —
`_is_duplicate_document` returns true, the duplicate red flag is recorded,
and line 596 even sets `risk_level = 'high'` — but the risk-score
reclassification at lines 629-644 unconditionally overwrites the level:
one red flag scores `0.5`, which is neither `> 1.0` nor `> 0.5`, so the
returned result has `risk_level = 'low'` and `status = 'passed'` instead of
the claimed (and intended) `high`. -/
theorem ai_fraud_detection_duplicate_risk_overwritten :
    is_duplicate_document dupDocSample dupDocSample = true ∧
    (ai_fraud_detection nowSample dupDocSample [dupDocSample]).red_flags =
      ["Possible duplicate submission detected"] ∧
    (ai_fraud_detection nowSample dupDocSample [dupDocSample]).risk_level =
      "low" ∧
    (ai_fraud_detection nowSample dupDocSample [dupDocSample]).status =
      "passed" ∧
    (ai_fraud_detection nowSample dupDocSample [dupDocSample]).risk_level ≠
      "high" := by
  with_unfolding_all decide

/-- C5 counterexample: neither an unparsable date nor a very old date
produces a hard issue.  `verify_data_validity` records `_validate_date`
failures in `warnings` (line 487), so with an unparsable date the `issues`
list stays empty and the result is still `valid`; a more-than-ten-years-old
date is reported valid by `_validate_date`, so not even its warning text is
recorded. -/
theorem verify_data_validity_date_counterexample :
    (validate_date nowSample "99/99/9999").1 = false ∧
    (verify_data_validity nowSample validWithBadDateSample
      endpointRequirements).issues = [] ∧
    (verify_data_validity nowSample validWithBadDateSample
      endpointRequirements).warnings =
      ["Invalid date format: 99/99/9999"] ∧
    (verify_data_validity nowSample validWithBadDateSample
      endpointRequirements).status = "valid" ∧
    (validate_date nowSample "12/05/2010") =
      (true, "Warning: Very old date: 12/05/2010") ∧
    (verify_data_validity nowSample oldDateSample
      endpointRequirements).warnings = [] := by
  with_unfolding_all decide

/-- C5 (amended): in `verify_data_validity` the parsed dates influence only
the `warnings` list — `issues`, `status` and `confidence` are exactly those
of the same document without dates, so the result can still be `valid`.  On
every non-error run the warnings are precisely the messages of the dates
whose `_validate_date` verdict is invalid: unparsable dates and future
dates (whose messages therefore land in `warnings`, not `issues`), while a
date older than ten years is reported valid with a very-old-date message
that is consequently recorded nowhere. -/
theorem verify_data_validity_dates_only_warn (now : ℚ) (s : StructuredData)
    (req : Requirements) :
    (verify_data_validity now s req).issues =
      (verify_data_validity now { s with dates := none } req).issues ∧
    (verify_data_validity now s req).status =
      (verify_data_validity now { s with dates := none } req).status ∧
    (verify_data_validity now s req).confidence =
      (verify_data_validity now { s with dates := none } req).confidence ∧
    ((verify_data_validity now s req).status ≠ "error" →
      (verify_data_validity now s req).warnings =
        (s.dates.getD []).filterMap (fun d =>
          if (validate_date now d).1 then none
          else some (validate_date now d).2)) ∧
    (∀ d, parseDateMulti d = none →
      validate_date now d = (false, "Invalid date format: " ++ d)) ∧
    (∀ d t, parseDateMulti d = some t → (tripleDayNum t : ℚ) > now →
      validate_date now d = (false, "Future date detected: " ++ d)) ∧
    (∀ d t, parseDateMulti d = some t → ¬ (tripleDayNum t : ℚ) > now →
      (tripleDayNum t : ℚ) < now - 3650 →
      validate_date now d = (true, "Warning: Very old date: " ++ d)) := by
  have hg : validityGradeStep { s with dates := none } req =
      validityGradeStep s req := rfl
  have hi : validityIncomeStep { s with dates := none } req =
      validityIncomeStep s req := rfl
  refine ⟨?_, ?_, ?_, ?_, ?_, ?_, ?_⟩
  case _ =>
    unfold verify_data_validity
    rw [hg, hi]
    cases validityGradeStep s req with
    | error m => rfl
    | ok p =>
      cases validityIncomeStep s req with
      | error m => rfl
      | ok q => simp [validityFinish]
  case _ =>
    unfold verify_data_validity
    rw [hg, hi]
    cases validityGradeStep s req with
    | error m => rfl
    | ok p =>
      cases validityIncomeStep s req with
      | error m => rfl
      | ok q => simp [validityFinish]
  case _ =>
    unfold verify_data_validity
    rw [hg, hi]
    cases validityGradeStep s req with
    | error m => rfl
    | ok p =>
      cases validityIncomeStep s req with
      | error m => rfl
      | ok q => simp [validityFinish]
  case _ =>
    intro hne
    unfold verify_data_validity at hne ⊢
    cases hg2 : validityGradeStep s req with
    | error m => rw [hg2] at hne; simp [validityError] at hne
    | ok p =>
      cases hi2 : validityIncomeStep s req with
      | error m => rw [hg2, hi2] at hne; simp [validityError] at hne
      | ok q =>
        obtain ⟨c1, i1⟩ := p
        obtain ⟨c2, i2⟩ := q
        show validityDateWarnings now s = _
        unfold validityDateWarnings
        cases s.dates with
        | none => rfl
        | some ds => rfl
  case _ =>
    intro d hd
    simp only [validate_date, hd]
  case _ =>
    intro d t hd hfut
    simp only [validate_date, hd]
    rw [if_pos hfut]
  case _ =>
    intro d t hd hnf hold
    simp only [validate_date, hd]
    rw [if_neg hnf, if_pos hold]

/-- C5 witness: a document carrying one unparsable date has that date's
message among its warnings while keeping the no-dates issues. -/
theorem verify_data_validity_dates_only_warn_witness :
    (verify_data_validity nowSample validWithBadDateSample
      endpointRequirements).warnings =
      ["Invalid date format: 99/99/9999"] := by
  have h := (verify_data_validity_dates_only_warn nowSample
    validWithBadDateSample endpointRequirements).2.2.2.1
    (by with_unfolding_all decide)
  rw [h]
  with_unfolding_all decide

/-- C8 counterexample: on its caught-exception path (an unparsable grade
hitting `float()`), the validity checker returns `status = 'error'` with
confidence 0, not the claimed neutral 0.5. -/
theorem validity_error_confidence_counterexample :
    (verify_data_validity nowSample badGradeSample
      endpointRequirements).status = "error" ∧
    (verify_data_validity nowSample badGradeSample
      endpointRequirements).confidence = 0 ∧
    (verify_data_validity nowSample badGradeSample
      endpointRequirements).confidence ≠ 0.5 := by
  with_unfolding_all decide

/-- C8 (amended): each checker converts its caught internal exceptions to a
returned `status = 'error'` with the stringified exception appended (to
`issues`; for the fraud checker, to `red_flags`) and confidence 0 — for
every checker, the validity checker included.  The fallible operations are
the modelled ones: `None.lower()` in the identity checker, `Image.open` in
the authenticity checker, and `float()` in the validity and fraud
checkers. -/
theorem checkers_catch_exceptions (now : ℚ) (s : StructuredData)
    (u : UserData) (ext : String) (img : ImageAnalysis) (c : ℚ)
    (req : Requirements) (hist : List StructuredData) (g : String) :
    (s.name.isSome = true → u.full_name = none →
      (verify_identity s u).status = "error" ∧
      (verify_identity s u).confidence = 0 ∧
      "Verification error: 'NoneType' object has no attribute 'lower'" ∈
        (verify_identity s u).issues) ∧
    (∀ e, pyLower ext ∈ [".jpg", ".jpeg", ".png"] → img.openError = some e →
      (verify_document_authenticity ext img c).status = "error" ∧
      (verify_document_authenticity ext img c).confidence = 0 ∧
      ("Authenticity check error: " ++ e) ∈
        (verify_document_authenticity ext img c).issues) ∧
    (s.grade = some g → req.min_grade.isSome = true → pyFloat g = none →
      (verify_data_validity now s req).status = "error" ∧
      (verify_data_validity now s req).confidence = 0 ∧
      ("Validity check error: " ++ pyFloatErrMsg g) ∈
        (verify_data_validity now s req).issues) ∧
    (∀ msg, fraudAmountWarnings s = .error msg →
      (ai_fraud_detection now s hist).status = "error" ∧
      (ai_fraud_detection now s hist).confidence = 0 ∧
      ("Fraud detection error: " ++ msg) ∈
        (ai_fraud_detection now s hist).red_flags) := by
  refine ⟨?_, ?_, ?_, ?_⟩
  case _ =>
    intro hname hfn
    unfold verify_identity
    cases hsn : s.name with
    | none => rw [hsn] at hname; simp at hname
    | some n =>
      rw [hfn]
      exact ⟨rfl, rfl, by simp [identityError]⟩
  case _ =>
    intro e hext hopen
    unfold verify_document_authenticity
    rw [if_pos hext, hopen]
    exact ⟨rfl, rfl, by simp⟩
  case _ =>
    intro hsg hmg hpf
    unfold verify_data_validity
    have : validityGradeStep s req = .error (pyFloatErrMsg g) := by
      unfold validityGradeStep
      rw [hsg]
      cases hm : req.min_grade with
      | none => rw [hm] at hmg; simp at hmg
      | some mg => simp [hpf]
    rw [this]
    exact ⟨rfl, rfl, by simp [validityError]⟩
  case _ =>
    intro msg hmsg
    unfold ai_fraud_detection
    rw [hmsg]
    exact ⟨rfl, rfl, by simp⟩

/-- C8 witness: the validity checker at the unparsable grade `'8.5.3'`. -/
theorem checkers_catch_exceptions_witness :
    (verify_data_validity nowSample badGradeSample
      endpointRequirements).status = "error" ∧
    (verify_data_validity nowSample badGradeSample
      endpointRequirements).confidence = 0 ∧
    ("Validity check error: " ++ pyFloatErrMsg "8.5.3") ∈
      (verify_data_validity nowSample badGradeSample
        endpointRequirements).issues :=
  (checkers_catch_exceptions nowSample badGradeSample {} ".pdf" {} 0
    endpointRequirements [] "8.5.3").2.2.1 rfl rfl
    (by with_unfolding_all rfl)

/-- C7 counterexample: on `"Date: 12/05/2020"` the two date patterns both
match the same date, and `_parse_document_fields` collects the `finditer`
results of BOTH patterns into one list, so the date appears twice — under
the claimed first-pattern-wins / no-merging rule it would appear once. -/
theorem parse_fields_dates_merged_counterexample :
    (parse_document_fields "Date: 12/05/2020").dates =
      some ["12/05/2020", "12/05/2020"] ∧
    datesFirstPatternWins "Date: 12/05/2020".data = ["12/05/2020"] ∧
    (parse_document_fields "Date: 12/05/2020").dates ≠
      some (datesFirstPatternWins "Date: 12/05/2020".data) := by
  with_unfolding_all decide

/-- C7 (amended): in `_parse_document_fields` the single-valued fields
(name, student ID, grade — and department and year, which have one pattern
each) follow first-pattern-wins: when the first pattern matches somewhere
its stripped capture is the field and the second pattern is not consulted,
and only when it matches nowhere does the second pattern decide.  The
dates and amounts fields instead merge: they collect the `finditer`
matches of ALL their patterns, first pattern's matches followed by the
second's. -/
theorem parse_fields_first_wins_except_dates_amounts (text : String) :
    (∀ n, searchPos nameLabeled text.data = some n →
      (parse_document_fields text).name = some (pyStrip ⟨n⟩)) ∧
    (searchPos nameLabeled text.data = none →
      (parse_document_fields text).name =
        (searchPos nameHonorific text.data).map (fun n => pyStrip ⟨n⟩)) ∧
    (∀ i, searchPos idLabeled text.data = some i →
      (parse_document_fields text).student_id = some (pyStrip ⟨i⟩)) ∧
    (searchPos idLabeled text.data = none →
      (parse_document_fields text).student_id =
        (idBareScan none text.data).map (fun i => pyStrip ⟨i⟩)) ∧
    (∀ g, searchPos gradeLabeled text.data = some g →
      (parse_document_fields text).grade = some ⟨g⟩) ∧
    (searchPos gradeLabeled text.data = none →
      (parse_document_fields text).grade =
        (searchPos gradePercent text.data).map (fun g => (⟨g⟩ : String))) ∧
    ((parse_document_fields text).dates.getD [] =
      (scanAll dateLabeled text.data.length text.data ++
        scanAll dateCore text.data.length text.data).map
        (fun c => (⟨c⟩ : String))) ∧
    ((parse_document_fields text).amounts.getD [] =
      (scanAll amountLabeled text.data.length text.data ++
        scanAll amountRupee text.data.length text.data).map
        (fun c => (⟨c⟩ : String))) := by
  refine ⟨?_, ?_, ?_, ?_, ?_, ?_, ?_, ?_⟩
  case _ => intro n hn; simp [parse_document_fields, hn]
  case _ => intro hn; simp [parse_document_fields, hn]
  case _ => intro i hi; simp [parse_document_fields, hi]
  case _ => intro hi; simp [parse_document_fields, hi]
  case _ => intro g hg; simp [parse_document_fields, hg]
  case _ => intro hg; simp [parse_document_fields, hg]
  case _ =>
    show (if parsedDates text.data ≠ [] then some (parsedDates text.data)
      else none).getD [] = _
    unfold parsedDates
    split <;> simp_all
  case _ =>
    show (if parsedAmounts text.data ≠ [] then some (parsedAmounts text.data)
      else none).getD [] = _
    unfold parsedAmounts
    split <;> simp_all

/-- C7 witness: on a text matched by the first grade pattern, the grade
field is its capture. -/
theorem parse_fields_first_wins_witness :
    (parse_document_fields "CGPA: 8.5").grade = some "8.5" :=
  (parse_fields_first_wins_except_dates_amounts "CGPA: 8.5").2.2.2.2.1
    ['8', '.', '5'] (by with_unfolding_all rfl)

/-- C10 counterexample: a PDF whose extracted text layer has exactly 100
characters (none of them whitespace) is not `< 100`, yet the code still
falls back to OCR — the guard is `len(text.strip()) > 100`, not
`≥ 100`. -/
theorem extract_pdf_threshold_counterexample :
    ((⟨List.replicate 100 'a'⟩ : String).length = 100 ∧
      ¬ (⟨List.replicate 100 'a'⟩ : String).length < 100) ∧
    (extract_text_with_ocr pdf100Sample ".pdf").method = "ocr_pdf" ∧
    (extract_text_with_ocr pdf100Sample ".pdf").method ≠
      "pdf_text_extraction" := by
  with_unfolding_all decide

/-- C10 (amended): for a PDF whose native text-layer extraction succeeds,
the fallback to OCR-over-rendered-pages (`method = 'ocr_pdf'`) happens
exactly when the text is empty or its stripped length is at most 100;
otherwise the text is returned with `method = 'pdf_text_extraction'` and
confidence 0.95. -/
theorem extract_pdf_branch (deps : ExtractDeps) (ext : String) (t : String)
    (hext : pyLower ext = ".pdf") (hok : deps.pdfText = .ok t) :
    ((t = "" ∨ (pyStrip t).length ≤ 100) →
      (extract_text_with_ocr deps ext).method = "ocr_pdf" ∧
      (extract_text_with_ocr deps ext).text = "" ∧
      (extract_text_with_ocr deps ext).confidence = 0) ∧
    ((t ≠ "" ∧ (pyStrip t).length > 100) →
      (extract_text_with_ocr deps ext).method = "pdf_text_extraction" ∧
      (extract_text_with_ocr deps ext).text = t ∧
      (extract_text_with_ocr deps ext).confidence = 0.95) := by
  constructor
  case _ =>
    intro h
    have hcond : ¬ (t ≠ "" ∧ (pyStrip t).length > 100) := by
      rcases h with h | h
      · exact fun hc => hc.1 h
      · exact fun hc => absurd hc.2 (by omega)
    simp [extract_text_with_ocr, hext, hok, hcond, mkExtracted, ocr_from_pdf]
  case _ =>
    intro h
    simp [extract_text_with_ocr, hext, hok, h, mkExtracted]

/-- C10 witness: a native text layer of 101 non-whitespace characters is
kept with `method = 'pdf_text_extraction'` and confidence 0.95. -/
theorem extract_pdf_branch_witness :
    (extract_text_with_ocr pdf101Sample ".pdf").method =
      "pdf_text_extraction" ∧
    (extract_text_with_ocr pdf101Sample ".pdf").text =
      (⟨List.replicate 101 'b'⟩ : String) ∧
    (extract_text_with_ocr pdf101Sample ".pdf").confidence = 0.95 :=
  (extract_pdf_branch pdf101Sample ".pdf" ⟨List.replicate 101 'b'⟩
    (by with_unfolding_all rfl) rfl).2
    ⟨by with_unfolding_all decide, by with_unfolding_all decide⟩

/-! ### Helper lemmas for the confidence-range invariant -/

/-- A quotient of a count by a count at least as large lies in `[0,1]`. -/
theorem count_div_mem_unit (a b : ℕ) (hab : a ≤ b) :
    0 ≤ (a : ℚ) / (b : ℚ) ∧ (a : ℚ) / (b : ℚ) ≤ 1 := by
  constructor
  · positivity
  · rcases Nat.eq_zero_or_pos b with hb | hb
    · subst hb; simp
    · rw [div_le_one (by exact_mod_cast hb)]
      exact_mod_cast hab

/-- `identityFinish` confidence lies in `[0,1]`. -/
theorem identityFinish_confidence_unit (ms mms : List (String × MatchEntry))
    (issues : List String) :
    0 ≤ (identityFinish ms mms issues).confidence ∧
    (identityFinish ms mms issues).confidence ≤ 1 := by
  simp only [identityFinish]
  split
  · exact count_div_mem_unit _ _ (by omega)
  · norm_num

/-- `identityError` confidence is 0. -/
theorem identityError_confidence_eq (ms mms : List (String × MatchEntry))
    (issues : List String) : (identityError ms mms issues).confidence = 0 :=
  rfl

/-- `identityDeptStep` confidence lies in `[0,1]`. -/
theorem identityDeptStep_confidence_unit (s : StructuredData) (u : UserData)
    (ms mms : List (String × MatchEntry)) (issues : List String) :
    0 ≤ (identityDeptStep s u ms mms issues).confidence ∧
    (identityDeptStep s u ms mms issues).confidence ≤ 1 := by
  unfold identityDeptStep
  cases s.department with
  | none => exact identityFinish_confidence_unit _ _ _
  | some d =>
    cases u.department with
    | none => rw [identityError_confidence_eq]; norm_num
    | some d2 => dsimp only; split <;> exact identityFinish_confidence_unit _ _ _

/-- `identityIdStep` confidence lies in `[0,1]`. -/
theorem identityIdStep_confidence_unit (s : StructuredData) (u : UserData)
    (ms mms : List (String × MatchEntry)) (issues : List String) :
    0 ≤ (identityIdStep s u ms mms issues).confidence ∧
    (identityIdStep s u ms mms issues).confidence ≤ 1 := by
  unfold identityIdStep
  cases s.student_id with
  | none => exact identityDeptStep_confidence_unit _ _ _ _ _
  | some i =>
    cases u.student_id with
    | none => rw [identityError_confidence_eq]; norm_num
    | some i2 => dsimp only; split <;> exact identityDeptStep_confidence_unit _ _ _ _ _

/-- `verify_identity` confidence lies in `[0,1]`. -/
theorem verify_identity_confidence_unit (s : StructuredData) (u : UserData) :
    0 ≤ (verify_identity s u).confidence ∧
    (verify_identity s u).confidence ≤ 1 := by
  unfold verify_identity
  cases s.name with
  | none => exact identityIdStep_confidence_unit _ _ _ _ _
  | some n =>
    cases u.full_name with
    | none => rw [identityError_confidence_eq]; norm_num
    | some fn => dsimp only; split <;> exact identityIdStep_confidence_unit _ _ _ _ _

/-- `assess_image_quality` lies in `[0,1]` for a nonnegative variance. -/
theorem assess_image_quality_unit (v : ℚ) (hv : 0 ≤ v) :
    0 ≤ assess_image_quality v ∧ assess_image_quality v ≤ 1 := by
  unfold assess_image_quality
  constructor
  · apply le_min (by positivity) (by norm_num)
  · exact min_le_right _ _

/-- `authenticityFinish` confidence lies in `[0,1]` when the quality and
OCR inputs do. -/
theorem authenticityFinish_confidence_unit (st sg : Option Bool)
    (q : Option ℚ) (is0 : List String) (c : ℚ)
    (hq0 : 0 ≤ q.getD 0) (hq1 : q.getD 0 ≤ 1) (hc0 : 0 ≤ c) (hc1 : c ≤ 1) :
    0 ≤ (authenticityFinish st sg q is0 c).confidence ∧
    (authenticityFinish st sg q is0 c).confidence ≤ 1 := by
  simp only [authenticityFinish]
  constructor <;> split_ifs <;> nlinarith

/-- `verify_document_authenticity` confidence lies in `[0,1]` when the
Laplacian variance is nonnegative and the extraction confidence is in
`[0,1]`. -/
theorem verify_document_authenticity_confidence_unit (ext : String)
    (img : ImageAnalysis) (c : ℚ) (hv : 0 ≤ img.laplacianVar)
    (hc0 : 0 ≤ c) (hc1 : c ≤ 1) :
    0 ≤ (verify_document_authenticity ext img c).confidence ∧
    (verify_document_authenticity ext img c).confidence ≤ 1 := by
  unfold verify_document_authenticity
  split
  · cases img.openError with
    | some e => norm_num
    | none =>
      have hq := assess_image_quality_unit img.laplacianVar hv
      exact authenticityFinish_confidence_unit _ _ _ _ _ hq.1 hq.2 hc0 hc1
  · exact authenticityFinish_confidence_unit _ _ _ _ _ le_rfl
      (by norm_num) hc0 hc1

/-- `validityFinish` confidence lies in `[0,1]`. -/
theorem validityFinish_confidence_unit
    (checks : List (String × CheckOutcome)) (issues warnings : List String) :
    0 ≤ (validityFinish checks issues warnings).confidence ∧
    (validityFinish checks issues warnings).confidence ≤ 1 := by
  simp only [validityFinish]
  split
  · exact count_div_mem_unit _ _ (List.countP_le_length _)
  · norm_num

/-- `verify_data_validity` confidence lies in `[0,1]`. -/
theorem verify_data_validity_confidence_unit (now : ℚ)
    (s : StructuredData) (req : Requirements) :
    0 ≤ (verify_data_validity now s req).confidence ∧
    (verify_data_validity now s req).confidence ≤ 1 := by
  unfold verify_data_validity
  cases validityGradeStep s req with
  | error m => show (0:ℚ) ≤ 0 ∧ (0:ℚ) ≤ 1; norm_num
  | ok p =>
    cases validityIncomeStep s req with
    | error m =>
      obtain ⟨c1, i1⟩ := p
      show (0:ℚ) ≤ 0 ∧ (0:ℚ) ≤ 1; norm_num
    | ok q =>
      obtain ⟨c1, i1⟩ := p
      obtain ⟨c2, i2⟩ := q
      exact validityFinish_confidence_unit _ _ _

/-- `check_completeness` confidence lies in `[0,1]`. -/
theorem check_completeness_confidence_unit (u r : List String) :
    0 ≤ (check_completeness u r).confidence ∧
    (check_completeness u r).confidence ≤ 1 := by
  simp only [check_completeness]
  split
  · exact count_div_mem_unit _ _ (List.length_filter_le _ _)
  · norm_num

/-- `ai_fraud_detection` confidence lies in `[0,1]`. -/
theorem ai_fraud_detection_confidence_unit (now : ℚ) (s : StructuredData)
    (hist : List StructuredData) :
    0 ≤ (ai_fraud_detection now s hist).confidence ∧
    (ai_fraud_detection now s hist).confidence ≤ 1 := by
  unfold ai_fraud_detection
  cases fraudAmountWarnings s with
  | error m => show (0:ℚ) ≤ 0 ∧ (0:ℚ) ≤ 1; norm_num
  | ok w =>
    have hconf : ∀ sc : ℚ, 0 ≤ sc →
        0 ≤ 1 - min (sc / 2) 1 ∧ 1 - min (sc / 2) 1 ≤ 1 := by
      intro sc hsc
      constructor
      · have := min_le_right (sc / 2) 1
        linarith
      · have : (0:ℚ) ≤ min (sc / 2) 1 :=
          le_min (by positivity) (by norm_num)
        linarith
    have hsc : (0:ℚ) ≤
        ((List.replicate (hist.countP
          (fun past => is_duplicate_document s past))
          "Possible duplicate submission detected").length : ℚ) * 0.5 +
        (([] : List String).length : ℚ) * 0.3 +
        ((fraudDateWarnings now s ++ w).length : ℚ) * 0.1 := by
      positivity
    dsimp only
    split_ifs <;> exact hconf _ hsc

/-- Summing over rows bounded above. -/
theorem int_list_sum_le_mul (b : ℤ) :
    ∀ (l : List ℤ), (∀ x ∈ l, x ≤ b) → l.sum ≤ b * l.length := by
  intro l
  induction l with
  | nil => simp
  | cons x xs ih =>
    intro h
    have hx := h x (by simp)
    have hxs := ih (fun y hy => h y (List.mem_cons_of_mem _ hy))
    simp only [List.sum_cons, List.length_cons]
    push_cast
    linarith

/-- The OCR average lies in `[0,100]` when every per-token confidence is at
most 100 (tesseract's scale). -/
theorem ocrImageAverage_bounds (rows : List (String × ℤ))
    (h : ∀ p ∈ rows, p.2 ≤ 100) :
    0 ≤ ocrImageAverage rows ∧ ocrImageAverage rows ≤ 100 := by
  unfold ocrImageAverage
  have hpos : ∀ p ∈ ocrValidRows rows, (0:ℤ) < p.2 := by
    intro p hp
    rw [ocrValidRows, List.mem_filter] at hp
    exact_mod_cast of_decide_eq_true hp.2
  have hle : ∀ p ∈ ocrValidRows rows, p.2 ≤ 100 := by
    intro p hp
    rw [ocrValidRows, List.mem_filter] at hp
    exact h p hp.1
  have hsum0 : (0:ℤ) ≤ ((ocrValidRows rows).map Prod.snd).sum :=
    List.sum_nonneg (by
      intro x hx
      obtain ⟨p, hp, hpx⟩ := List.mem_map.mp hx
      exact le_of_lt (hpx ▸ hpos p hp))
  have hsum1 : ((ocrValidRows rows).map Prod.snd).sum ≤
      100 * (ocrValidRows rows).length := by
    have := int_list_sum_le_mul 100 ((ocrValidRows rows).map Prod.snd) (by
      intro x hx
      obtain ⟨p, hp, hpx⟩ := List.mem_map.mp hx
      exact hpx ▸ hle p hp)
    simpa using this
  split
  case isTrue hne =>
    have hlen : (0:ℚ) < ((ocrValidRows rows).length : ℚ) := by
      have : 0 < (ocrValidRows rows).length := List.length_pos.mpr hne
      exact_mod_cast this
    constructor
    · positivity
    · rw [div_le_iff₀ hlen]
      calc (((ocrValidRows rows).map Prod.snd).sum : ℚ)
          ≤ ((100 * (ocrValidRows rows).length : ℤ) : ℚ) := by
            exact_mod_cast hsum1
        _ = 100 * ((ocrValidRows rows).length : ℚ) := by push_cast; ring
  case isFalse => norm_num

/-- `_ocr_from_image` confidence lies in `[0,1]` when every per-token
confidence is at most 100. -/
theorem ocr_from_image_confidence_unit (en : Bool)
    (d : Except String (List (String × ℤ)))
    (h : ∀ rows, d = .ok rows → ∀ p ∈ rows, p.2 ≤ 100) :
    0 ≤ (ocr_from_image en d).2 ∧ (ocr_from_image en d).2 ≤ 1 := by
  unfold ocr_from_image
  cases d with
  | error e => norm_num
  | ok rows =>
    dsimp only
    split
    · have := ocrImageAverage_bounds rows (h rows rfl)
      constructor
      · exact div_nonneg this.1 (by norm_num)
      · rw [div_le_one (by norm_num)]
        exact this.2
    · norm_num

/-- `extract_text_with_ocr` confidence lies in `[0,1]` when the OCR
per-token confidences are at most 100. -/
theorem extract_confidence_unit (deps : ExtractDeps) (ext : String)
    (h : ∀ rows, deps.imageOcrData = .ok rows → ∀ p ∈ rows, p.2 ≤ 100) :
    0 ≤ (extract_text_with_ocr deps ext).confidence ∧
    (extract_text_with_ocr deps ext).confidence ≤ 1 := by
  simp only [extract_text_with_ocr]
  split_ifs with h1 h2 h3
  · cases hp : deps.pdfText with
    | error e => norm_num [extractError]
    | ok t =>
      dsimp only
      split <;> norm_num [mkExtracted, ocr_from_pdf]
  · show 0 ≤ (mkExtracted _ (ocr_from_image deps.ocrEnabled
        deps.imageOcrData).2 _).confidence ∧ _
    simp only [mkExtracted]
    exact ocr_from_image_confidence_unit deps.ocrEnabled deps.imageOcrData h
  · cases hd : deps.docxText with
    | error e => norm_num [extractError]
    | ok t => norm_num [mkExtracted]
  · norm_num [mkExtracted]

/-- `auto_decision` reports the weighted confidence in every branch. -/
theorem auto_decision_confidence_eq (r : AllResults) :
    (auto_decision r).confidence = weightedConfidence r := by
  unfold auto_decision
  split_ifs <;> rfl

/-- `weightedConfidence` lies in `[0,1]` when every present check
confidence does. -/
theorem weightedConfidence_unit (r : AllResults)
    (h1 : ∀ x, r.identity = some x → 0 ≤ x.confidence ∧ x.confidence ≤ 1)
    (h2 : ∀ x, r.authenticity = some x →
      0 ≤ x.confidence ∧ x.confidence ≤ 1)
    (h3 : ∀ x, r.validity = some x → 0 ≤ x.confidence ∧ x.confidence ≤ 1)
    (h4 : ∀ x, r.completeness = some x →
      0 ≤ x.confidence ∧ x.confidence ≤ 1)
    (h5 : ∀ x, r.fraud = some x → 0 ≤ x.confidence ∧ x.confidence ≤ 1) :
    0 ≤ weightedConfidence r ∧ weightedConfidence r ≤ 1 := by
  have g1 : 0 ≤ (Option.map IdentityResult.confidence r.identity).getD 0 ∧
      (Option.map IdentityResult.confidence r.identity).getD 0 ≤ 1 := by
    cases hx : r.identity with
    | none => norm_num
    | some x => simpa using h1 x hx
  have g2 : 0 ≤
      (Option.map AuthenticityResult.confidence r.authenticity).getD 0 ∧
      (Option.map AuthenticityResult.confidence r.authenticity).getD 0 ≤ 1 := by
    cases hx : r.authenticity with
    | none => norm_num
    | some x => simpa using h2 x hx
  have g3 : 0 ≤ (Option.map ValidityResult.confidence r.validity).getD 0 ∧
      (Option.map ValidityResult.confidence r.validity).getD 0 ≤ 1 := by
    cases hx : r.validity with
    | none => norm_num
    | some x => simpa using h3 x hx
  have g4 : 0 ≤
      (Option.map CompletenessResult.confidence r.completeness).getD 0 ∧
      (Option.map CompletenessResult.confidence r.completeness).getD 0 ≤ 1 := by
    cases hx : r.completeness with
    | none => norm_num
    | some x => simpa using h4 x hx
  have g5 : 0 ≤ (Option.map FraudResult.confidence r.fraud).getD 0 ∧
      (Option.map FraudResult.confidence r.fraud).getD 0 ≤ 1 := by
    cases hx : r.fraud with
    | none => norm_num
    | some x => simpa using h5 x hx
  unfold weightedConfidence
  constructor <;> nlinarith [g1.1, g1.2, g2.1, g2.2, g3.1, g3.2, g4.1, g4.2,
    g5.1, g5.2]

/-- C9: every confidence the pipeline produces lies in `[0,1]` — the
extraction confidence (given tesseract's per-token confidences are at most
100), each of the five checker confidences (given a nonnegative Laplacian
variance and an extraction confidence in `[0,1]` for the authenticity
checker), and the decision's weighted confidence (given the five inputs it
aggregates are in `[0,1]`). -/
theorem pipeline_confidences_in_unit_interval
    (deps : ExtractDeps) (fext : String) (s : StructuredData) (u : UserData)
    (aext : String) (img : ImageAnalysis) (c now : ℚ) (req : Requirements)
    (ud rd : List String) (hist : List StructuredData) (r : AllResults)
    (hocr : ∀ rows, deps.imageOcrData = .ok rows → ∀ p ∈ rows, p.2 ≤ 100)
    (hvar : 0 ≤ img.laplacianVar) (hc0 : 0 ≤ c) (hc1 : c ≤ 1)
    (h1 : ∀ x, r.identity = some x → 0 ≤ x.confidence ∧ x.confidence ≤ 1)
    (h2 : ∀ x, r.authenticity = some x →
      0 ≤ x.confidence ∧ x.confidence ≤ 1)
    (h3 : ∀ x, r.validity = some x → 0 ≤ x.confidence ∧ x.confidence ≤ 1)
    (h4 : ∀ x, r.completeness = some x →
      0 ≤ x.confidence ∧ x.confidence ≤ 1)
    (h5 : ∀ x, r.fraud = some x → 0 ≤ x.confidence ∧ x.confidence ≤ 1) :
    (0 ≤ (extract_text_with_ocr deps fext).confidence ∧
      (extract_text_with_ocr deps fext).confidence ≤ 1) ∧
    (0 ≤ (verify_identity s u).confidence ∧
      (verify_identity s u).confidence ≤ 1) ∧
    (0 ≤ (verify_document_authenticity aext img c).confidence ∧
      (verify_document_authenticity aext img c).confidence ≤ 1) ∧
    (0 ≤ (verify_data_validity now s req).confidence ∧
      (verify_data_validity now s req).confidence ≤ 1) ∧
    (0 ≤ (check_completeness ud rd).confidence ∧
      (check_completeness ud rd).confidence ≤ 1) ∧
    (0 ≤ (ai_fraud_detection now s hist).confidence ∧
      (ai_fraud_detection now s hist).confidence ≤ 1) ∧
    ((auto_decision r).confidence = weightedConfidence r ∧
      0 ≤ weightedConfidence r ∧ weightedConfidence r ≤ 1) :=
  ⟨extract_confidence_unit deps fext hocr,
   verify_identity_confidence_unit s u,
   verify_document_authenticity_confidence_unit aext img c hvar hc0 hc1,
   verify_data_validity_confidence_unit now s req,
   check_completeness_confidence_unit ud rd,
   ai_fraud_detection_confidence_unit now s hist,
   auto_decision_confidence_eq r,
   (weightedConfidence_unit r h1 h2 h3 h4 h5).1,
   (weightedConfidence_unit r h1 h2 h3 h4 h5).2⟩

/-- C9 witness: the bounds instantiated at concrete inputs (a 101-character
PDF, a duplicate-fields document, a PDF authenticity check at extraction
confidence 0.95, the endpoint requirements, and the empty results dict). -/
theorem pipeline_confidences_in_unit_interval_witness :
    (0 ≤ (extract_text_with_ocr pdf101Sample ".pdf").confidence ∧
      (extract_text_with_ocr pdf101Sample ".pdf").confidence ≤ 1) ∧
    (0 ≤ (verify_identity dupDocSample {}).confidence ∧
      (verify_identity dupDocSample {}).confidence ≤ 1) ∧
    (0 ≤ (verify_document_authenticity ".pdf" {} 0.95).confidence ∧
      (verify_document_authenticity ".pdf" {} 0.95).confidence ≤ 1) ∧
    (0 ≤ (verify_data_validity nowSample dupDocSample
        endpointRequirements).confidence ∧
      (verify_data_validity nowSample dupDocSample
        endpointRequirements).confidence ≤ 1) ∧
    (0 ≤ (check_completeness [] ["id_proof"]).confidence ∧
      (check_completeness [] ["id_proof"]).confidence ≤ 1) ∧
    (0 ≤ (ai_fraud_detection nowSample dupDocSample []).confidence ∧
      (ai_fraud_detection nowSample dupDocSample []).confidence ≤ 1) ∧
    ((auto_decision {}).confidence = weightedConfidence {} ∧
      0 ≤ weightedConfidence ({} : AllResults) ∧
      weightedConfidence ({} : AllResults) ≤ 1) :=
  pipeline_confidences_in_unit_interval pdf101Sample ".pdf" dupDocSample {}
    ".pdf" {} 0.95 nowSample endpointRequirements [] ["id_proof"] [] {}
    (fun rows h => by cases h; intro p hp; simp at hp)
    le_rfl (by norm_num) (by norm_num)
    (fun x h => nomatch h) (fun x h => nomatch h) (fun x h => nomatch h)
    (fun x h => nomatch h) (fun x h => nomatch h)

/-! ### Helper lemmas for the endpoint aggregation fold -/

/-- `keepWorst` always yields a result, drawn from its inputs, whose
confidence is at most both of theirs. -/
theorem keepWorst_spec (conf : α → ℚ) (b : Option α) (x : α) :
    ∃ w, keepWorst conf b x = some w ∧ (w = x ∨ b = some w) ∧
      conf w ≤ conf x ∧ (∀ z, b = some z → conf w ≤ conf z) := by
  cases b with
  | none =>
    refine ⟨x, rfl, Or.inl rfl, le_rfl, ?_⟩
    intro z hz
    cases hz
  | some b' =>
    unfold keepWorst
    dsimp only
    by_cases hlt : conf x < conf b'
    · rw [if_pos hlt]
      refine ⟨x, rfl, Or.inl rfl, le_rfl, ?_⟩
      intro z hz
      cases Option.some.inj hz
      exact le_of_lt hlt
    · rw [if_neg hlt]
      refine ⟨b', rfl, Or.inr rfl, le_of_not_lt hlt, ?_⟩
      intro z hz
      cases Option.some.inj hz
      exact le_rfl

/-- A `keepWorst` fold returns an input element achieving the minimum
confidence. -/
theorem foldl_keepWorst_min (conf : α → ℚ) :
    ∀ (l : List α) (b : Option α) (y : α),
      l.foldl (keepWorst conf) b = some y →
      (y ∈ l ∨ b = some y) ∧ (∀ x ∈ l, conf y ≤ conf x) ∧
      (∀ z, b = some z → conf y ≤ conf z) := by
  intro l
  induction l with
  | nil =>
    intro b y hy
    refine ⟨Or.inr hy, ?_, ?_⟩
    · intro x hx; cases hx
    · intro z hz
      rw [hz] at hy
      cases Option.some.inj hy
      exact le_rfl
  | cons x xs ih =>
    intro b y hy
    simp only [List.foldl_cons] at hy
    obtain ⟨w, hw, hwsrc, hwx, hwb⟩ := keepWorst_spec conf b x
    obtain ⟨hsrc, hxs, hacc⟩ := ih (keepWorst conf b x) y hy
    have hyw : conf y ≤ conf w := hacc w hw
    refine ⟨?_, ?_, ?_⟩
    · rcases hsrc with hmem | heq
      · exact Or.inl (List.mem_cons_of_mem _ hmem)
      · rw [hw] at heq
        cases Option.some.inj heq
        rcases hwsrc with rfl | hb
        · exact Or.inl (List.mem_cons_self _ _)
        · exact Or.inr hb
    · intro x' hx'
      rcases List.mem_cons.mp hx' with rfl | hx'
      · exact le_trans hyw hwx
      · exact hxs x' hx'
    · intro z hz
      exact le_trans hyw (hwb z hz)

/-- The endpoint identity fold is the `keepWorst` fold over the
per-document identity results. -/
theorem endpointIdentity_fold_aux (user : UserData) :
    ∀ (docs : List DocInput) (b : Option IdentityResult),
      docs.foldl (fun best d =>
        match d.payload with
        | none => best
        | some p => keepWorst IdentityResult.confidence best
            (verify_identity p.extracted.structured_data user)) b =
      (perDocIdentity user docs).foldl
        (keepWorst IdentityResult.confidence) b := by
  intro docs
  induction docs with
  | nil => intro b; rfl
  | cons d ds ih =>
    intro b
    cases hp : d.payload with
    | none =>
      simp only [List.foldl_cons, hp]
      rw [show perDocIdentity user (d :: ds) = perDocIdentity user ds from by
        unfold perDocIdentity
        simp [List.filterMap_cons, hp]]
      exact ih b
    | some p =>
      simp only [List.foldl_cons, hp]
      rw [show perDocIdentity user (d :: ds) =
          verify_identity p.extracted.structured_data user ::
            perDocIdentity user ds from by
        unfold perDocIdentity
        simp [List.filterMap_cons, hp]]
      simp only [List.foldl_cons]
      exact ih _

/-- The endpoint authenticity fold is the `keepWorst` fold over the
per-document authenticity results. -/
theorem endpointAuthenticity_fold_aux :
    ∀ (docs : List DocInput) (b : Option AuthenticityResult),
      docs.foldl (fun best d =>
        match d.payload with
        | none => best
        | some p => keepWorst AuthenticityResult.confidence best
            (verify_document_authenticity p.ext p.img
              p.extracted.confidence)) b =
      (perDocAuthenticity docs).foldl
        (keepWorst AuthenticityResult.confidence) b := by
  intro docs
  induction docs with
  | nil => intro b; rfl
  | cons d ds ih =>
    intro b
    cases hp : d.payload with
    | none =>
      simp only [List.foldl_cons, hp]
      rw [show perDocAuthenticity (d :: ds) = perDocAuthenticity ds from by
        unfold perDocAuthenticity
        simp [List.filterMap_cons, hp]]
      exact ih b
    | some p =>
      simp only [List.foldl_cons, hp]
      rw [show perDocAuthenticity (d :: ds) =
          verify_document_authenticity p.ext p.img p.extracted.confidence ::
            perDocAuthenticity ds from by
        unfold perDocAuthenticity
        simp [List.filterMap_cons, hp]]
      simp only [List.foldl_cons]
      exact ih _

/-- C4 counterexample: on the two-document request `c4docs` the endpoint
stores the FIRST document's validity result (confidence 1) as the
request-level validity entry even though the second document's validity
confidence is 0, so the request-level representative is not the
per-document result with the lowest confidence. -/
theorem endpoint_not_lowest_confidence_counterexample :
    ¬ lowestConfRepresentative nowSample {} c4docs := by
  intro hprop
  obtain ⟨-, -, hv, -⟩ := hprop _ rfl
  obtain ⟨-, hle⟩ := hv _ rfl
  have hx : verify_data_validity nowSample c4s1 endpointRequirements ∈
      perDocValidity nowSample c4docs := by
    with_unfolding_all decide
  have h10 := hle _ hx
  exact absurd h10 (by with_unfolding_all decide)

/-- C4 (amended): for a request whose first document was processed
successfully, the endpoint keeps, as request-level representatives, the
lowest-confidence per-document result for identity and for authenticity
only (the first among ties); validity and fraud are computed from the
first document's extraction alone (fraud with an empty history), and
completeness once from the document types of all uploaded documents
against the fixed required list. -/
theorem endpoint_aggregation_worst_case (now : ℚ) (user : UserData)
    (d0 : DocInput) (rest : List DocInput) (p0 : DocPayload)
    (hp0 : d0.payload = some p0) :
    verify_scholarship_request_agg now user (d0 :: rest) = .ok
      { identity := endpointIdentity user (d0 :: rest),
        authenticity := endpointAuthenticity (d0 :: rest),
        validity := some (verify_data_validity now
          p0.extracted.structured_data endpointRequirements),
        completeness := some (check_completeness
          ((d0 :: rest).map DocInput.document_type) requiredDocumentsList),
        fraud := some (ai_fraud_detection now
          p0.extracted.structured_data []) } ∧
    (∀ i, endpointIdentity user (d0 :: rest) = some i →
      i ∈ perDocIdentity user (d0 :: rest) ∧
      ∀ x ∈ perDocIdentity user (d0 :: rest),
        i.confidence ≤ x.confidence) ∧
    (∀ a, endpointAuthenticity (d0 :: rest) = some a →
      a ∈ perDocAuthenticity (d0 :: rest) ∧
      ∀ x ∈ perDocAuthenticity (d0 :: rest),
        a.confidence ≤ x.confidence) := by
  refine ⟨?_, ?_, ?_⟩
  · unfold verify_scholarship_request_agg
    dsimp only
    rw [hp0]
  · intro i hi
    unfold endpointIdentity at hi
    rw [endpointIdentity_fold_aux user (d0 :: rest) none] at hi
    obtain ⟨hsrc, hmin, -⟩ :=
      foldl_keepWorst_min IdentityResult.confidence _ none i hi
    rcases hsrc with hmem | heq
    · exact ⟨hmem, hmin⟩
    · cases heq
  · intro a ha
    unfold endpointAuthenticity at ha
    rw [endpointAuthenticity_fold_aux (d0 :: rest) none] at ha
    obtain ⟨hsrc, hmin, -⟩ :=
      foldl_keepWorst_min AuthenticityResult.confidence _ none a ha
    rcases hsrc with hmem | heq
    · exact ⟨hmem, hmin⟩
    · cases heq

/-- C4 witness: the aggregation equation at the concrete two-document
request. -/
theorem endpoint_aggregation_worst_case_witness :
    verify_scholarship_request_agg nowSample {} c4docs = .ok
      { identity := endpointIdentity {} c4docs,
        authenticity := endpointAuthenticity c4docs,
        validity := some (verify_data_validity nowSample
          c4e0.structured_data endpointRequirements),
        completeness := some (check_completeness
          (c4docs.map DocInput.document_type) requiredDocumentsList),
        fraud := some (ai_fraud_detection nowSample
          c4e0.structured_data []) } :=
  (endpoint_aggregation_worst_case nowSample {} c4doc0 [c4doc1]
    ⟨".pdf", c4e0, {}⟩ rfl).1

end Camps
